/-
Verification of the mmg-wasm handle-indirection and bulk-marshalling layer.

The C sources (src/mmg2d.c, src/mmg3d.c, src/mmgs.c) are shallowly embedded:
* each variant's global handle table is a total function from slot index to
  a table entry (the C array has 64 cells and every access is bounds-checked
  before use);
* calls into the external MMG kernel (an opaque collaborator) are modelled by
  oracle values passed to each wrapper: the oracle carries exactly the data
  the kernel call would produce (its return code and any out-parameters);
* malloc/free are modelled by an explicit allocation state holding the list
  of live buffer identifiers; malloc success is driven by an oracle;
* C doubles that the wrappers merely pass through untouched are modelled
  as rationals.
-/
import Mathlib

set_option linter.unusedVariables false

namespace MmgWasm

/-- MAX_HANDLES from the C sources: capacity of each handle table. -/
def MAX_HANDLES : Nat := 64

/-! ## Allocation model

A buffer is identified by a natural number.  `AllocState` records the next
fresh identifier and the list of currently live (allocated, not yet freed)
buffers.  `mallocBuf` consults an oracle `ok` telling whether the allocation
at the current counter succeeds; `freeBuf` models `free`, a no-op on NULL. -/

structure AllocState where
  nextId : Nat
  live : List Nat
deriving DecidableEq

def mallocBuf (ok : Nat → Bool) (st : AllocState) : Option Nat × AllocState :=
  if ok st.nextId then
    (some st.nextId, ⟨st.nextId + 1, st.nextId :: st.live⟩)
  else
    (none, ⟨st.nextId + 1, st.live⟩)

def freeBuf (st : AllocState) (p : Option Nat) : AllocState :=
  match p with
  | none => st
  | some b => ⟨st.nextId, st.live.erase b⟩

/-- The `cleanup:` label of the goto-style bulk getters frees four pointers
in declaration order (NULL frees are no-ops). -/
def cleanup4 (st : AllocState) (a b c d : Option Nat) : AllocState :=
  freeBuf (freeBuf (freeBuf (freeBuf st a) b) c) d

/-- The `cleanup:` label of the three-buffer goto-style bulk getters. -/
def cleanup3 (st : AllocState) (a b c : Option Nat) : AllocState :=
  freeBuf (freeBuf (freeBuf st a) b) c

/-! ## Kernel oracles

Each structure packages the outcome of one call into the external MMG
library: the return code plus whatever the call writes through its out
parameters.  Mesh and solution pointers produced by `*_Init_mesh` are
modelled as optional naturals (`none` = NULL). -/

structure KernelInit where
  result : Int
  mesh : Option Nat
  sol : Option Nat
deriving DecidableEq

structure KernelMeshSize2D where
  result : Int
  np : Int
  nt : Int
  nquad : Int
  na : Int
deriving DecidableEq

structure KernelMeshSize3D where
  result : Int
  np : Int
  ne : Int
  nprism : Int
  nt : Int
  nquad : Int
  na : Int
deriving DecidableEq

structure KernelMeshSizeS where
  result : Int
  np : Int
  nt : Int
  na : Int
deriving DecidableEq

structure KernelSolSize where
  result : Int
  typEntity : Int
  np : Int
  typSol : Int
deriving DecidableEq

/-! ## MMG2D variant (src/mmg2d.c) -/

structure HandleEntry2D where
  mesh : Option Nat
  sol : Option Nat
  active : Bool
deriving DecidableEq

abbrev Table2D := Nat → HandleEntry2D

/-- The zeroed table produced by `ensure_initialized_2d` (memset to 0). -/
def g_handles_2d_start : Table2D := fun _ => ⟨none, none, false⟩

def find_free_handle_2d_loop (t : Table2D) : Nat → Nat → Int
  | 0, _ => -1
  | fuel + 1, i =>
    if (t i).active = false then Int.ofNat i
    else find_free_handle_2d_loop t fuel (i + 1)

/-- find_free_handle_2d: scan slots 0..63, return the first inactive index,
or -1 when every slot is active. -/
def find_free_handle_2d (t : Table2D) : Int :=
  find_free_handle_2d_loop t MAX_HANDLES 0

/-- validate_handle_2d: reject out-of-range indices, then report the slot's
active flag. -/
def validate_handle_2d (t : Table2D) (handle : Int) : Bool :=
  if handle < 0 ∨ (MAX_HANDLES : Int) ≤ handle then false
  else (t handle.toNat).active

def available_handles_2d_loop (t : Table2D) : Nat → Nat → Nat
  | 0, _ => 0
  | fuel + 1, i =>
    (if (t i).active = false then 1 else 0) + available_handles_2d_loop t fuel (i + 1)

/-- mmg2d_get_available_handles: count the inactive slots. -/
def mmg2d_get_available_handles (t : Table2D) : Nat :=
  available_handles_2d_loop t MAX_HANDLES 0

def active_count_2d_loop (t : Table2D) : Nat → Nat → Nat
  | 0, _ => 0
  | fuel + 1, i =>
    (if (t i).active = true then 1 else 0) + active_count_2d_loop t fuel (i + 1)

/-- Number of active slots of the 2D table (the spec's `active_count`). -/
def active_count_2d (t : Table2D) : Nat :=
  active_count_2d_loop t MAX_HANDLES 0

def mmg2d_get_max_handles : Nat := MAX_HANDLES

/-- mmg2d_init: acquire the first free slot, run the kernel construction,
bind the fresh mesh/sol pair into the slot and mark it active.  Returns -1
(table unchanged) when no slot is free or construction fails. -/
def mmg2d_init (k : KernelInit) (t : Table2D) : Int × Table2D :=
  let handle := find_free_handle_2d t
  if handle < 0 then (-1, t)
  else if k.result ≠ 1 ∨ k.mesh = none then (-1, t)
  else (handle, Function.update t handle.toNat ⟨k.mesh, k.sol, true⟩)

/-- mmg2d_free: validate, destroy the bound pair, clear the slot. -/
def mmg2d_free (t : Table2D) (handle : Int) : Int × Table2D :=
  if validate_handle_2d t handle = false then (0, t)
  else (1, Function.update t handle.toNat ⟨none, none, false⟩)

def mmg2d_set_mesh_size (kres : Int) (t : Table2D) (handle np nt nquad na : Int) :
    Int × Table2D :=
  if validate_handle_2d t handle = false then (0, t)
  else (kres, t)

def mmg2d_get_mesh_size (ms : KernelMeshSize2D) (t : Table2D) (handle : Int) :
    (Int × Option (Int × Int × Int × Int)) × Table2D :=
  if validate_handle_2d t handle = false then ((0, none), t)
  else if ms.result = 1 then ((ms.result, some (ms.np, ms.nt, ms.nquad, ms.na)), t)
  else ((ms.result, none), t)

def mmg2d_set_vertex (kres : Int) (t : Table2D) (handle : Int) (x y : Rat)
    (ref pos : Int) : Int × Table2D :=
  if validate_handle_2d t handle = false then (0, t)
  else (kres, t)

def mmg2d_set_vertices (kres : Int) (t : Table2D) (handle : Int)
    (vertices : List Rat) (refs : Option (List Int)) : Int × Table2D :=
  if validate_handle_2d t handle = false then (0, t)
  else (kres, t)

/-- mmg2d_get_vertices: validate, query sizes, then the four-buffer
allocate-or-rollback pattern (vertices, refs, corners, required); only the
vertices buffer survives on success. -/
def mmg2d_get_vertices (ms : KernelMeshSize2D) (gres : Int) (ok : Nat → Bool)
    (t : Table2D) (st : AllocState) (handle : Int) :
    (Option Nat × Int) × Table2D × AllocState :=
  if validate_handle_2d t handle = false then ((none, 0), t, st)
  else if ms.result ≠ 1 then ((none, 0), t, st)
  else if ms.np = 0 then ((none, 0), t, st)
  else
    match mallocBuf ok st with
    | (none, st1) => ((none, 0), t, cleanup4 st1 none none none none)
    | (some v, st1) =>
      match mallocBuf ok st1 with
      | (none, st2) => ((none, 0), t, cleanup4 st2 (some v) none none none)
      | (some r, st2) =>
        match mallocBuf ok st2 with
        | (none, st3) => ((none, 0), t, cleanup4 st3 (some v) (some r) none none)
        | (some c, st3) =>
          match mallocBuf ok st3 with
          | (none, st4) => ((none, 0), t, cleanup4 st4 (some v) (some r) (some c) none)
          | (some q, st4) =>
            let st5 := freeBuf (freeBuf (freeBuf st4 (some r)) (some c)) (some q)
            if gres ≠ 1 then ((none, 0), t, freeBuf st5 (some v))
            else ((some v, ms.np), t, st5)

def mmg2d_set_triangle (kres : Int) (t : Table2D) (handle v0 v1 v2 ref pos : Int) :
    Int × Table2D :=
  if validate_handle_2d t handle = false then (0, t)
  else (kres, t)

def mmg2d_set_triangles (kres : Int) (t : Table2D) (handle : Int)
    (tria : List Int) (refs : Option (List Int)) : Int × Table2D :=
  if validate_handle_2d t handle = false then (0, t)
  else (kres, t)

/-- mmg2d_get_triangles: three-buffer allocate-or-rollback (tria, refs,
required); the tria buffer survives on success. -/
def mmg2d_get_triangles (ms : KernelMeshSize2D) (gres : Int) (ok : Nat → Bool)
    (t : Table2D) (st : AllocState) (handle : Int) :
    (Option Nat × Int) × Table2D × AllocState :=
  if validate_handle_2d t handle = false then ((none, 0), t, st)
  else if ms.result ≠ 1 then ((none, 0), t, st)
  else if ms.nt = 0 then ((none, 0), t, st)
  else
    match mallocBuf ok st with
    | (none, st1) => ((none, 0), t, cleanup3 st1 none none none)
    | (some tr, st1) =>
      match mallocBuf ok st1 with
      | (none, st2) => ((none, 0), t, cleanup3 st2 (some tr) none none)
      | (some r, st2) =>
        match mallocBuf ok st2 with
        | (none, st3) => ((none, 0), t, cleanup3 st3 (some tr) (some r) none)
        | (some q, st3) =>
          let st4 := freeBuf (freeBuf st3 (some r)) (some q)
          if gres ≠ 1 then ((none, 0), t, freeBuf st4 (some tr))
          else ((some tr, ms.nt), t, st4)

def mmg2d_set_edge (kres : Int) (t : Table2D) (handle v0 v1 ref pos : Int) :
    Int × Table2D :=
  if validate_handle_2d t handle = false then (0, t)
  else (kres, t)

def mmg2d_set_edges (kres : Int) (t : Table2D) (handle : Int)
    (edges : List Int) (refs : Option (List Int)) : Int × Table2D :=
  if validate_handle_2d t handle = false then (0, t)
  else (kres, t)

/-- mmg2d_get_edges: four-buffer allocate-or-rollback (edges, refs, ridges,
required); the edges buffer survives on success. -/
def mmg2d_get_edges (ms : KernelMeshSize2D) (gres : Int) (ok : Nat → Bool)
    (t : Table2D) (st : AllocState) (handle : Int) :
    (Option Nat × Int) × Table2D × AllocState :=
  if validate_handle_2d t handle = false then ((none, 0), t, st)
  else if ms.result ≠ 1 then ((none, 0), t, st)
  else if ms.na = 0 then ((none, 0), t, st)
  else
    match mallocBuf ok st with
    | (none, st1) => ((none, 0), t, cleanup4 st1 none none none none)
    | (some e, st1) =>
      match mallocBuf ok st1 with
      | (none, st2) => ((none, 0), t, cleanup4 st2 (some e) none none none)
      | (some r, st2) =>
        match mallocBuf ok st2 with
        | (none, st3) => ((none, 0), t, cleanup4 st3 (some e) (some r) none none)
        | (some ri, st3) =>
          match mallocBuf ok st3 with
          | (none, st4) => ((none, 0), t, cleanup4 st4 (some e) (some r) (some ri) none)
          | (some q, st4) =>
            let st5 := freeBuf (freeBuf (freeBuf st4 (some r)) (some ri)) (some q)
            if gres ≠ 1 then ((none, 0), t, freeBuf st5 (some e))
            else ((some e, ms.na), t, st5)

def mmg2d_set_iparameter (kres : Int) (t : Table2D) (handle iparam val : Int) :
    Int × Table2D :=
  if validate_handle_2d t handle = false then (0, t)
  else (kres, t)

def mmg2d_set_dparameter (kres : Int) (t : Table2D) (handle dparam : Int)
    (val : Rat) : Int × Table2D :=
  if validate_handle_2d t handle = false then (0, t)
  else (kres, t)

def mmg2d_set_sol_size (kres : Int) (t : Table2D) (handle typEntity np typSol : Int) :
    Int × Table2D :=
  if validate_handle_2d t handle = false then (0, t)
  else (kres, t)

def mmg2d_get_sol_size (ss : KernelSolSize) (t : Table2D) (handle : Int) :
    (Int × Option (Int × Int × Int)) × Table2D :=
  if validate_handle_2d t handle = false then ((0, none), t)
  else if ss.result = 1 then ((ss.result, some (ss.typEntity, ss.np, ss.typSol)), t)
  else ((ss.result, none), t)

def mmg2d_set_scalar_sols (kres : Int) (t : Table2D) (handle : Int)
    (values : List Rat) : Int × Table2D :=
  if validate_handle_2d t handle = false then (0, t)
  else (kres, t)

/-- mmg2d_get_scalar_sols: validate, query the solution size, guard on a
zero count or a non-scalar type, then allocate one buffer and fill it. -/
def mmg2d_get_scalar_sols (ss : KernelSolSize) (gres : Int) (ok : Nat → Bool)
    (t : Table2D) (st : AllocState) (handle : Int) :
    (Option Nat × Int) × Table2D × AllocState :=
  if validate_handle_2d t handle = false then ((none, 0), t, st)
  else if ss.result ≠ 1 then ((none, 0), t, st)
  else if ss.np = 0 ∨ ss.typSol ≠ 1 then ((none, 0), t, st)
  else
    match mallocBuf ok st with
    | (none, st1) => ((none, 0), t, st1)
    | (some v, st1) =>
      if gres ≠ 1 then ((none, 0), t, freeBuf st1 (some v))
      else ((some v, ss.np), t, st1)

def mmg2d_set_tensor_sols (kres : Int) (t : Table2D) (handle : Int)
    (values : List Rat) : Int × Table2D :=
  if validate_handle_2d t handle = false then (0, t)
  else (kres, t)

/-- mmg2d_get_tensor_sols: like the scalar getter, guarding on typSol ≠ 3. -/
def mmg2d_get_tensor_sols (ss : KernelSolSize) (gres : Int) (ok : Nat → Bool)
    (t : Table2D) (st : AllocState) (handle : Int) :
    (Option Nat × Int) × Table2D × AllocState :=
  if validate_handle_2d t handle = false then ((none, 0), t, st)
  else if ss.result ≠ 1 then ((none, 0), t, st)
  else if ss.np = 0 ∨ ss.typSol ≠ 3 then ((none, 0), t, st)
  else
    match mallocBuf ok st with
    | (none, st1) => ((none, 0), t, st1)
    | (some v, st1) =>
      if gres ≠ 1 then ((none, 0), t, freeBuf st1 (some v))
      else ((some v, ss.np), t, st1)

/-- mmg2d_remesh: -1 on an invalid handle, else the kernel's return code. -/
def mmg2d_remesh (kres : Int) (t : Table2D) (handle : Int) : Int × Table2D :=
  if validate_handle_2d t handle = false then (-1, t)
  else (kres, t)

/-- mmg2d_free_array: free(ptr) guarded against NULL. -/
def mmg2d_free_array (st : AllocState) (ptr : Option Nat) : AllocState :=
  freeBuf st ptr

def mmg2d_load_mesh (kres : Int) (t : Table2D) (handle : Int) (filename : String) :
    Int × Table2D :=
  if validate_handle_2d t handle = false then (0, t)
  else (kres, t)

def mmg2d_save_mesh (kres : Int) (t : Table2D) (handle : Int) (filename : String) :
    Int × Table2D :=
  if validate_handle_2d t handle = false then (0, t)
  else (kres, t)

def mmg2d_load_sol (kres : Int) (t : Table2D) (handle : Int) (filename : String) :
    Int × Table2D :=
  if validate_handle_2d t handle = false then (0, t)
  else (kres, t)

def mmg2d_save_sol (kres : Int) (t : Table2D) (handle : Int) (filename : String) :
    Int × Table2D :=
  if validate_handle_2d t handle = false then (0, t)
  else (kres, t)

/-- mmg2d_get_triangle_quality: 0.0 on an invalid handle, else the kernel's
quality value for 1-based triangle index k (the oracle `qual` stands for
`MMG2D_Get_triangleQuality` on this mesh/sol pair). -/
def mmg2d_get_triangle_quality (qual : Int → Rat) (t : Table2D) (handle k : Int) :
    Rat × Table2D :=
  if validate_handle_2d t handle = false then (0, t)
  else (qual k, t)

/-- mmg2d_get_triangles_qualities: one buffer, filled by the loop
`for k in 1..nt, qualities[k-1] := quality k`. -/
def mmg2d_get_triangles_qualities (ms : KernelMeshSize2D) (qual : Int → Rat)
    (ok : Nat → Bool) (t : Table2D) (st : AllocState) (handle : Int) :
    (Option (Nat × List Rat) × Int) × Table2D × AllocState :=
  if validate_handle_2d t handle = false then ((none, 0), t, st)
  else if ms.result ≠ 1 then ((none, 0), t, st)
  else if ms.nt = 0 then ((none, 0), t, st)
  else
    match mallocBuf ok st with
    | (none, st1) => ((none, 0), t, st1)
    | (some b, st1) =>
      ((some (b, (List.range ms.nt.toNat).map (fun i => qual (Int.ofNat (i + 1)))),
        ms.nt), t, st1)

/-! ## MMG3D variant (src/mmg3d.c)

Structurally identical to the 2D variant except for the entity set
(tetrahedra instead of edges, six mesh-size counts) and the bulk getters,
which allocate the data buffer first with its own failure check and then
the side buffers with one combined check. -/

structure HandleEntry where
  mesh : Option Nat
  sol : Option Nat
  active : Bool
deriving DecidableEq

abbrev Table3D := Nat → HandleEntry

/-- The zeroed 3D table produced by `ensure_initialized` (memset to 0). -/
def g_handles_start : Table3D := fun _ => ⟨none, none, false⟩

def find_free_handle_loop (t : Table3D) : Nat → Nat → Int
  | 0, _ => -1
  | fuel + 1, i =>
    if (t i).active = false then Int.ofNat i
    else find_free_handle_loop t fuel (i + 1)

def find_free_handle (t : Table3D) : Int :=
  find_free_handle_loop t MAX_HANDLES 0

def validate_handle (t : Table3D) (handle : Int) : Bool :=
  if handle < 0 ∨ (MAX_HANDLES : Int) ≤ handle then false
  else (t handle.toNat).active

def available_handles_loop (t : Table3D) : Nat → Nat → Nat
  | 0, _ => 0
  | fuel + 1, i =>
    (if (t i).active = false then 1 else 0) + available_handles_loop t fuel (i + 1)

def mmg3d_get_available_handles (t : Table3D) : Nat :=
  available_handles_loop t MAX_HANDLES 0

def active_count_3d_loop (t : Table3D) : Nat → Nat → Nat
  | 0, _ => 0
  | fuel + 1, i =>
    (if (t i).active = true then 1 else 0) + active_count_3d_loop t fuel (i + 1)

/-- Number of active slots of the 3D table. -/
def active_count_3d (t : Table3D) : Nat :=
  active_count_3d_loop t MAX_HANDLES 0

def mmg3d_get_max_handles : Nat := MAX_HANDLES

def mmg3d_init (k : KernelInit) (t : Table3D) : Int × Table3D :=
  let handle := find_free_handle t
  if handle < 0 then (-1, t)
  else if k.result ≠ 1 ∨ k.mesh = none then (-1, t)
  else (handle, Function.update t handle.toNat ⟨k.mesh, k.sol, true⟩)

def mmg3d_free (t : Table3D) (handle : Int) : Int × Table3D :=
  if validate_handle t handle = false then (0, t)
  else (1, Function.update t handle.toNat ⟨none, none, false⟩)

def mmg3d_set_mesh_size (kres : Int) (t : Table3D)
    (handle np ne nprism nt nquad na : Int) : Int × Table3D :=
  if validate_handle t handle = false then (0, t)
  else (kres, t)

def mmg3d_get_mesh_size (ms : KernelMeshSize3D) (t : Table3D) (handle : Int) :
    (Int × Option (Int × Int × Int × Int × Int × Int)) × Table3D :=
  if validate_handle t handle = false then ((0, none), t)
  else if ms.result = 1 then
    ((ms.result, some (ms.np, ms.ne, ms.nprism, ms.nt, ms.nquad, ms.na)), t)
  else ((ms.result, none), t)

def mmg3d_set_vertex (kres : Int) (t : Table3D) (handle : Int) (x y z : Rat)
    (ref pos : Int) : Int × Table3D :=
  if validate_handle t handle = false then (0, t)
  else (kres, t)

def mmg3d_set_vertices (kres : Int) (t : Table3D) (handle : Int)
    (vertices : List Rat) (refs : Option (List Int)) : Int × Table3D :=
  if validate_handle t handle = false then (0, t)
  else (kres, t)

/-- mmg3d_get_vertices: allocate the vertex buffer with its own check, then
refs/corners/required unconditionally with one combined check; roll back
everything on any failure, keep only the vertex buffer on success. -/
def mmg3d_get_vertices (ms : KernelMeshSize3D) (gres : Int) (ok : Nat → Bool)
    (t : Table3D) (st : AllocState) (handle : Int) :
    (Option Nat × Int) × Table3D × AllocState :=
  if validate_handle t handle = false then ((none, 0), t, st)
  else if ms.result ≠ 1 then ((none, 0), t, st)
  else if ms.np = 0 then ((none, 0), t, st)
  else
    match mallocBuf ok st with
    | (none, st1) => ((none, 0), t, st1)
    | (some v, st1) =>
      let (refs, st2) := mallocBuf ok st1
      let (corners, st3) := mallocBuf ok st2
      let (required, st4) := mallocBuf ok st3
      if refs = none ∨ corners = none ∨ required = none then
        ((none, 0), t,
          freeBuf (freeBuf (freeBuf (freeBuf st4 (some v)) refs) corners) required)
      else
        let st5 := freeBuf (freeBuf (freeBuf st4 refs) corners) required
        if gres ≠ 1 then ((none, 0), t, freeBuf st5 (some v))
        else ((some v, ms.np), t, st5)

def mmg3d_set_tetrahedron (kres : Int) (t : Table3D)
    (handle v0 v1 v2 v3 ref pos : Int) : Int × Table3D :=
  if validate_handle t handle = false then (0, t)
  else (kres, t)

def mmg3d_set_tetrahedra (kres : Int) (t : Table3D) (handle : Int)
    (tetra : List Int) (refs : Option (List Int)) : Int × Table3D :=
  if validate_handle t handle = false then (0, t)
  else (kres, t)

/-- mmg3d_get_tetrahedra: tetra buffer with its own check, then
refs/required with one combined check. -/
def mmg3d_get_tetrahedra (ms : KernelMeshSize3D) (gres : Int) (ok : Nat → Bool)
    (t : Table3D) (st : AllocState) (handle : Int) :
    (Option Nat × Int) × Table3D × AllocState :=
  if validate_handle t handle = false then ((none, 0), t, st)
  else if ms.result ≠ 1 then ((none, 0), t, st)
  else if ms.ne = 0 then ((none, 0), t, st)
  else
    match mallocBuf ok st with
    | (none, st1) => ((none, 0), t, st1)
    | (some te, st1) =>
      let (refs, st2) := mallocBuf ok st1
      let (required, st3) := mallocBuf ok st2
      if refs = none ∨ required = none then
        ((none, 0), t, freeBuf (freeBuf (freeBuf st3 (some te)) refs) required)
      else
        let st4 := freeBuf (freeBuf st3 refs) required
        if gres ≠ 1 then ((none, 0), t, freeBuf st4 (some te))
        else ((some te, ms.ne), t, st4)

def mmg3d_set_triangle (kres : Int) (t : Table3D) (handle v0 v1 v2 ref pos : Int) :
    Int × Table3D :=
  if validate_handle t handle = false then (0, t)
  else (kres, t)

def mmg3d_set_triangles (kres : Int) (t : Table3D) (handle : Int)
    (tria : List Int) (refs : Option (List Int)) : Int × Table3D :=
  if validate_handle t handle = false then (0, t)
  else (kres, t)

/-- mmg3d_get_triangles: tria buffer with its own check, then refs/required
with one combined check. -/
def mmg3d_get_triangles (ms : KernelMeshSize3D) (gres : Int) (ok : Nat → Bool)
    (t : Table3D) (st : AllocState) (handle : Int) :
    (Option Nat × Int) × Table3D × AllocState :=
  if validate_handle t handle = false then ((none, 0), t, st)
  else if ms.result ≠ 1 then ((none, 0), t, st)
  else if ms.nt = 0 then ((none, 0), t, st)
  else
    match mallocBuf ok st with
    | (none, st1) => ((none, 0), t, st1)
    | (some tr, st1) =>
      let (refs, st2) := mallocBuf ok st1
      let (required, st3) := mallocBuf ok st2
      if refs = none ∨ required = none then
        ((none, 0), t, freeBuf (freeBuf (freeBuf st3 (some tr)) refs) required)
      else
        let st4 := freeBuf (freeBuf st3 refs) required
        if gres ≠ 1 then ((none, 0), t, freeBuf st4 (some tr))
        else ((some tr, ms.nt), t, st4)

def mmg3d_set_iparameter (kres : Int) (t : Table3D) (handle iparam val : Int) :
    Int × Table3D :=
  if validate_handle t handle = false then (0, t)
  else (kres, t)

def mmg3d_set_dparameter (kres : Int) (t : Table3D) (handle dparam : Int)
    (val : Rat) : Int × Table3D :=
  if validate_handle t handle = false then (0, t)
  else (kres, t)

def mmg3d_set_sol_size (kres : Int) (t : Table3D) (handle typEntity np typSol : Int) :
    Int × Table3D :=
  if validate_handle t handle = false then (0, t)
  else (kres, t)

def mmg3d_get_sol_size (ss : KernelSolSize) (t : Table3D) (handle : Int) :
    (Int × Option (Int × Int × Int)) × Table3D :=
  if validate_handle t handle = false then ((0, none), t)
  else if ss.result = 1 then ((ss.result, some (ss.typEntity, ss.np, ss.typSol)), t)
  else ((ss.result, none), t)

def mmg3d_set_scalar_sols (kres : Int) (t : Table3D) (handle : Int)
    (values : List Rat) : Int × Table3D :=
  if validate_handle t handle = false then (0, t)
  else (kres, t)

def mmg3d_get_scalar_sols (ss : KernelSolSize) (gres : Int) (ok : Nat → Bool)
    (t : Table3D) (st : AllocState) (handle : Int) :
    (Option Nat × Int) × Table3D × AllocState :=
  if validate_handle t handle = false then ((none, 0), t, st)
  else if ss.result ≠ 1 then ((none, 0), t, st)
  else if ss.np = 0 ∨ ss.typSol ≠ 1 then ((none, 0), t, st)
  else
    match mallocBuf ok st with
    | (none, st1) => ((none, 0), t, st1)
    | (some v, st1) =>
      if gres ≠ 1 then ((none, 0), t, freeBuf st1 (some v))
      else ((some v, ss.np), t, st1)

def mmg3d_set_tensor_sols (kres : Int) (t : Table3D) (handle : Int)
    (values : List Rat) : Int × Table3D :=
  if validate_handle t handle = false then (0, t)
  else (kres, t)

def mmg3d_get_tensor_sols (ss : KernelSolSize) (gres : Int) (ok : Nat → Bool)
    (t : Table3D) (st : AllocState) (handle : Int) :
    (Option Nat × Int) × Table3D × AllocState :=
  if validate_handle t handle = false then ((none, 0), t, st)
  else if ss.result ≠ 1 then ((none, 0), t, st)
  else if ss.np = 0 ∨ ss.typSol ≠ 3 then ((none, 0), t, st)
  else
    match mallocBuf ok st with
    | (none, st1) => ((none, 0), t, st1)
    | (some v, st1) =>
      if gres ≠ 1 then ((none, 0), t, freeBuf st1 (some v))
      else ((some v, ss.np), t, st1)

def mmg3d_remesh (kres : Int) (t : Table3D) (handle : Int) : Int × Table3D :=
  if validate_handle t handle = false then (-1, t)
  else (kres, t)

def mmg3d_free_array (st : AllocState) (ptr : Option Nat) : AllocState :=
  freeBuf st ptr

def mmg3d_load_mesh (kres : Int) (t : Table3D) (handle : Int) (filename : String) :
    Int × Table3D :=
  if validate_handle t handle = false then (0, t)
  else (kres, t)

def mmg3d_save_mesh (kres : Int) (t : Table3D) (handle : Int) (filename : String) :
    Int × Table3D :=
  if validate_handle t handle = false then (0, t)
  else (kres, t)

def mmg3d_load_sol (kres : Int) (t : Table3D) (handle : Int) (filename : String) :
    Int × Table3D :=
  if validate_handle t handle = false then (0, t)
  else (kres, t)

def mmg3d_save_sol (kres : Int) (t : Table3D) (handle : Int) (filename : String) :
    Int × Table3D :=
  if validate_handle t handle = false then (0, t)
  else (kres, t)

def mmg3d_get_tetrahedron_quality (qual : Int → Rat) (t : Table3D) (handle k : Int) :
    Rat × Table3D :=
  if validate_handle t handle = false then (0, t)
  else (qual k, t)

def mmg3d_get_tetrahedra_qualities (ms : KernelMeshSize3D) (qual : Int → Rat)
    (ok : Nat → Bool) (t : Table3D) (st : AllocState) (handle : Int) :
    (Option (Nat × List Rat) × Int) × Table3D × AllocState :=
  if validate_handle t handle = false then ((none, 0), t, st)
  else if ms.result ≠ 1 then ((none, 0), t, st)
  else if ms.ne = 0 then ((none, 0), t, st)
  else
    match mallocBuf ok st with
    | (none, st1) => ((none, 0), t, st1)
    | (some b, st1) =>
      ((some (b, (List.range ms.ne.toNat).map (fun i => qual (Int.ofNat (i + 1)))),
        ms.ne), t, st1)

/-! ## MMGS variant (src/mmgs.c)

Surface meshes: 3D vertices, triangles and edges; three mesh-size counts.
The bulk getters use the same goto-style four/three-buffer rollback as the
2D variant. -/

structure HandleEntryS where
  mesh : Option Nat
  sol : Option Nat
  active : Bool
deriving DecidableEq

abbrev TableS := Nat → HandleEntryS

/-- The zeroed surface table produced by `ensure_initialized_s`. -/
def g_handles_s_start : TableS := fun _ => ⟨none, none, false⟩

def find_free_handle_s_loop (t : TableS) : Nat → Nat → Int
  | 0, _ => -1
  | fuel + 1, i =>
    if (t i).active = false then Int.ofNat i
    else find_free_handle_s_loop t fuel (i + 1)

def find_free_handle_s (t : TableS) : Int :=
  find_free_handle_s_loop t MAX_HANDLES 0

def validate_handle_s (t : TableS) (handle : Int) : Bool :=
  if handle < 0 ∨ (MAX_HANDLES : Int) ≤ handle then false
  else (t handle.toNat).active

def available_handles_s_loop (t : TableS) : Nat → Nat → Nat
  | 0, _ => 0
  | fuel + 1, i =>
    (if (t i).active = false then 1 else 0) + available_handles_s_loop t fuel (i + 1)

def mmgs_get_available_handles (t : TableS) : Nat :=
  available_handles_s_loop t MAX_HANDLES 0

def active_count_s_loop (t : TableS) : Nat → Nat → Nat
  | 0, _ => 0
  | fuel + 1, i =>
    (if (t i).active = true then 1 else 0) + active_count_s_loop t fuel (i + 1)

/-- Number of active slots of the surface table. -/
def active_count_s (t : TableS) : Nat :=
  active_count_s_loop t MAX_HANDLES 0

def mmgs_get_max_handles : Nat := MAX_HANDLES

def mmgs_init (k : KernelInit) (t : TableS) : Int × TableS :=
  let handle := find_free_handle_s t
  if handle < 0 then (-1, t)
  else if k.result ≠ 1 ∨ k.mesh = none then (-1, t)
  else (handle, Function.update t handle.toNat ⟨k.mesh, k.sol, true⟩)

def mmgs_free (t : TableS) (handle : Int) : Int × TableS :=
  if validate_handle_s t handle = false then (0, t)
  else (1, Function.update t handle.toNat ⟨none, none, false⟩)

def mmgs_set_mesh_size (kres : Int) (t : TableS) (handle np nt na : Int) :
    Int × TableS :=
  if validate_handle_s t handle = false then (0, t)
  else (kres, t)

def mmgs_get_mesh_size (ms : KernelMeshSizeS) (t : TableS) (handle : Int) :
    (Int × Option (Int × Int × Int)) × TableS :=
  if validate_handle_s t handle = false then ((0, none), t)
  else if ms.result = 1 then ((ms.result, some (ms.np, ms.nt, ms.na)), t)
  else ((ms.result, none), t)

def mmgs_set_vertex (kres : Int) (t : TableS) (handle : Int) (x y z : Rat)
    (ref pos : Int) : Int × TableS :=
  if validate_handle_s t handle = false then (0, t)
  else (kres, t)

def mmgs_set_vertices (kres : Int) (t : TableS) (handle : Int)
    (vertices : List Rat) (refs : Option (List Int)) : Int × TableS :=
  if validate_handle_s t handle = false then (0, t)
  else (kres, t)

/-- mmgs_get_vertices: four-buffer goto-style allocate-or-rollback
(vertices, refs, corners, required). -/
def mmgs_get_vertices (ms : KernelMeshSizeS) (gres : Int) (ok : Nat → Bool)
    (t : TableS) (st : AllocState) (handle : Int) :
    (Option Nat × Int) × TableS × AllocState :=
  if validate_handle_s t handle = false then ((none, 0), t, st)
  else if ms.result ≠ 1 then ((none, 0), t, st)
  else if ms.np = 0 then ((none, 0), t, st)
  else
    match mallocBuf ok st with
    | (none, st1) => ((none, 0), t, cleanup4 st1 none none none none)
    | (some v, st1) =>
      match mallocBuf ok st1 with
      | (none, st2) => ((none, 0), t, cleanup4 st2 (some v) none none none)
      | (some r, st2) =>
        match mallocBuf ok st2 with
        | (none, st3) => ((none, 0), t, cleanup4 st3 (some v) (some r) none none)
        | (some c, st3) =>
          match mallocBuf ok st3 with
          | (none, st4) => ((none, 0), t, cleanup4 st4 (some v) (some r) (some c) none)
          | (some q, st4) =>
            let st5 := freeBuf (freeBuf (freeBuf st4 (some r)) (some c)) (some q)
            if gres ≠ 1 then ((none, 0), t, freeBuf st5 (some v))
            else ((some v, ms.np), t, st5)

def mmgs_set_triangle (kres : Int) (t : TableS) (handle v0 v1 v2 ref pos : Int) :
    Int × TableS :=
  if validate_handle_s t handle = false then (0, t)
  else (kres, t)

def mmgs_set_triangles (kres : Int) (t : TableS) (handle : Int)
    (tria : List Int) (refs : Option (List Int)) : Int × TableS :=
  if validate_handle_s t handle = false then (0, t)
  else (kres, t)

/-- mmgs_get_triangles: three-buffer goto-style allocate-or-rollback. -/
def mmgs_get_triangles (ms : KernelMeshSizeS) (gres : Int) (ok : Nat → Bool)
    (t : TableS) (st : AllocState) (handle : Int) :
    (Option Nat × Int) × TableS × AllocState :=
  if validate_handle_s t handle = false then ((none, 0), t, st)
  else if ms.result ≠ 1 then ((none, 0), t, st)
  else if ms.nt = 0 then ((none, 0), t, st)
  else
    match mallocBuf ok st with
    | (none, st1) => ((none, 0), t, cleanup3 st1 none none none)
    | (some tr, st1) =>
      match mallocBuf ok st1 with
      | (none, st2) => ((none, 0), t, cleanup3 st2 (some tr) none none)
      | (some r, st2) =>
        match mallocBuf ok st2 with
        | (none, st3) => ((none, 0), t, cleanup3 st3 (some tr) (some r) none)
        | (some q, st3) =>
          let st4 := freeBuf (freeBuf st3 (some r)) (some q)
          if gres ≠ 1 then ((none, 0), t, freeBuf st4 (some tr))
          else ((some tr, ms.nt), t, st4)

def mmgs_set_edge (kres : Int) (t : TableS) (handle v0 v1 ref pos : Int) :
    Int × TableS :=
  if validate_handle_s t handle = false then (0, t)
  else (kres, t)

def mmgs_set_edges (kres : Int) (t : TableS) (handle : Int)
    (edges : List Int) (refs : Option (List Int)) : Int × TableS :=
  if validate_handle_s t handle = false then (0, t)
  else (kres, t)

/-- mmgs_get_edges: four-buffer goto-style allocate-or-rollback
(edges, refs, ridges, required). -/
def mmgs_get_edges (ms : KernelMeshSizeS) (gres : Int) (ok : Nat → Bool)
    (t : TableS) (st : AllocState) (handle : Int) :
    (Option Nat × Int) × TableS × AllocState :=
  if validate_handle_s t handle = false then ((none, 0), t, st)
  else if ms.result ≠ 1 then ((none, 0), t, st)
  else if ms.na = 0 then ((none, 0), t, st)
  else
    match mallocBuf ok st with
    | (none, st1) => ((none, 0), t, cleanup4 st1 none none none none)
    | (some e, st1) =>
      match mallocBuf ok st1 with
      | (none, st2) => ((none, 0), t, cleanup4 st2 (some e) none none none)
      | (some r, st2) =>
        match mallocBuf ok st2 with
        | (none, st3) => ((none, 0), t, cleanup4 st3 (some e) (some r) none none)
        | (some ri, st3) =>
          match mallocBuf ok st3 with
          | (none, st4) => ((none, 0), t, cleanup4 st4 (some e) (some r) (some ri) none)
          | (some q, st4) =>
            let st5 := freeBuf (freeBuf (freeBuf st4 (some r)) (some ri)) (some q)
            if gres ≠ 1 then ((none, 0), t, freeBuf st5 (some e))
            else ((some e, ms.na), t, st5)

def mmgs_set_iparameter (kres : Int) (t : TableS) (handle iparam val : Int) :
    Int × TableS :=
  if validate_handle_s t handle = false then (0, t)
  else (kres, t)

def mmgs_set_dparameter (kres : Int) (t : TableS) (handle dparam : Int)
    (val : Rat) : Int × TableS :=
  if validate_handle_s t handle = false then (0, t)
  else (kres, t)

def mmgs_set_sol_size (kres : Int) (t : TableS) (handle typEntity np typSol : Int) :
    Int × TableS :=
  if validate_handle_s t handle = false then (0, t)
  else (kres, t)

def mmgs_get_sol_size (ss : KernelSolSize) (t : TableS) (handle : Int) :
    (Int × Option (Int × Int × Int)) × TableS :=
  if validate_handle_s t handle = false then ((0, none), t)
  else if ss.result = 1 then ((ss.result, some (ss.typEntity, ss.np, ss.typSol)), t)
  else ((ss.result, none), t)

def mmgs_set_scalar_sols (kres : Int) (t : TableS) (handle : Int)
    (values : List Rat) : Int × TableS :=
  if validate_handle_s t handle = false then (0, t)
  else (kres, t)

def mmgs_get_scalar_sols (ss : KernelSolSize) (gres : Int) (ok : Nat → Bool)
    (t : TableS) (st : AllocState) (handle : Int) :
    (Option Nat × Int) × TableS × AllocState :=
  if validate_handle_s t handle = false then ((none, 0), t, st)
  else if ss.result ≠ 1 then ((none, 0), t, st)
  else if ss.np = 0 ∨ ss.typSol ≠ 1 then ((none, 0), t, st)
  else
    match mallocBuf ok st with
    | (none, st1) => ((none, 0), t, st1)
    | (some v, st1) =>
      if gres ≠ 1 then ((none, 0), t, freeBuf st1 (some v))
      else ((some v, ss.np), t, st1)

def mmgs_set_tensor_sols (kres : Int) (t : TableS) (handle : Int)
    (values : List Rat) : Int × TableS :=
  if validate_handle_s t handle = false then (0, t)
  else (kres, t)

def mmgs_get_tensor_sols (ss : KernelSolSize) (gres : Int) (ok : Nat → Bool)
    (t : TableS) (st : AllocState) (handle : Int) :
    (Option Nat × Int) × TableS × AllocState :=
  if validate_handle_s t handle = false then ((none, 0), t, st)
  else if ss.result ≠ 1 then ((none, 0), t, st)
  else if ss.np = 0 ∨ ss.typSol ≠ 3 then ((none, 0), t, st)
  else
    match mallocBuf ok st with
    | (none, st1) => ((none, 0), t, st1)
    | (some v, st1) =>
      if gres ≠ 1 then ((none, 0), t, freeBuf st1 (some v))
      else ((some v, ss.np), t, st1)

def mmgs_remesh (kres : Int) (t : TableS) (handle : Int) : Int × TableS :=
  if validate_handle_s t handle = false then (-1, t)
  else (kres, t)

def mmgs_free_array (st : AllocState) (ptr : Option Nat) : AllocState :=
  freeBuf st ptr

def mmgs_load_mesh (kres : Int) (t : TableS) (handle : Int) (filename : String) :
    Int × TableS :=
  if validate_handle_s t handle = false then (0, t)
  else (kres, t)

def mmgs_save_mesh (kres : Int) (t : TableS) (handle : Int) (filename : String) :
    Int × TableS :=
  if validate_handle_s t handle = false then (0, t)
  else (kres, t)

def mmgs_load_sol (kres : Int) (t : TableS) (handle : Int) (filename : String) :
    Int × TableS :=
  if validate_handle_s t handle = false then (0, t)
  else (kres, t)

def mmgs_save_sol (kres : Int) (t : TableS) (handle : Int) (filename : String) :
    Int × TableS :=
  if validate_handle_s t handle = false then (0, t)
  else (kres, t)

def mmgs_get_triangle_quality (qual : Int → Rat) (t : TableS) (handle k : Int) :
    Rat × TableS :=
  if validate_handle_s t handle = false then (0, t)
  else (qual k, t)

def mmgs_get_triangles_qualities (ms : KernelMeshSizeS) (qual : Int → Rat)
    (ok : Nat → Bool) (t : TableS) (st : AllocState) (handle : Int) :
    (Option (Nat × List Rat) × Int) × TableS × AllocState :=
  if validate_handle_s t handle = false then ((none, 0), t, st)
  else if ms.result ≠ 1 then ((none, 0), t, st)
  else if ms.nt = 0 then ((none, 0), t, st)
  else
    match mallocBuf ok st with
    | (none, st1) => ((none, 0), t, st1)
    | (some b, st1) =>
      ((some (b, (List.range ms.nt.toNat).map (fun i => qual (Int.ofNat (i + 1)))),
        ms.nt), t, st1)

/-! ## Lifecycle sequences

Only `init` and `free` ever write to a handle table; a run of lifecycle
operations from the zeroed table describes every reachable table state. -/

inductive Op2D where
  | opInit (k : KernelInit)
  | opFree (handle : Int)

def run2d : List Op2D → Table2D → Table2D
  | [], t => t
  | Op2D.opInit k :: rest, t => run2d rest (mmg2d_init k t).2
  | Op2D.opFree h :: rest, t => run2d rest (mmg2d_free t h).2

inductive Op3D where
  | opInit (k : KernelInit)
  | opFree (handle : Int)

def run3d : List Op3D → Table3D → Table3D
  | [], t => t
  | Op3D.opInit k :: rest, t => run3d rest (mmg3d_init k t).2
  | Op3D.opFree h :: rest, t => run3d rest (mmg3d_free t h).2

inductive OpS where
  | opInit (k : KernelInit)
  | opFree (handle : Int)

def runS : List OpS → TableS → TableS
  | [], t => t
  | OpS.opInit k :: rest, t => runS rest (mmgs_init k t).2
  | OpS.opFree h :: rest, t => runS rest (mmgs_free t h).2

/-- A kernel construction that always succeeds (used for concrete runs). -/
def kernel_ok : KernelInit := ⟨1, some 1, some 1⟩

/-- Table after n successive successful `mmg2d_init` calls from the zeroed
table, with no intervening `free`. -/
def iter_init_2d : Nat → Table2D
  | 0 => g_handles_2d_start
  | n + 1 => (mmg2d_init kernel_ok (iter_init_2d n)).2

/-! ## The three process-wide tables together

`g_handles_2d`, `g_handles` and `g_handles_s` are separate static arrays;
the combined process state is their product, and each variant's lifecycle
operations only write to their own component. -/

structure GlobalState where
  t2d : Table2D
  t3d : Table3D
  ts : TableS

def glob_mmg2d_init (k : KernelInit) (s : GlobalState) : Int × GlobalState :=
  let r := mmg2d_init k s.t2d
  (r.1, { s with t2d := r.2 })

def glob_mmg2d_free (s : GlobalState) (handle : Int) : Int × GlobalState :=
  let r := mmg2d_free s.t2d handle
  (r.1, { s with t2d := r.2 })

def glob_mmg3d_init (k : KernelInit) (s : GlobalState) : Int × GlobalState :=
  let r := mmg3d_init k s.t3d
  (r.1, { s with t3d := r.2 })

def glob_mmg3d_free (s : GlobalState) (handle : Int) : Int × GlobalState :=
  let r := mmg3d_free s.t3d handle
  (r.1, { s with t3d := r.2 })

def glob_mmgs_init (k : KernelInit) (s : GlobalState) : Int × GlobalState :=
  let r := mmgs_init k s.ts
  (r.1, { s with ts := r.2 })

def glob_mmgs_free (s : GlobalState) (handle : Int) : Int × GlobalState :=
  let r := mmgs_free s.ts handle
  (r.1, { s with ts := r.2 })

/-! ## Concrete fixtures used by witness instances -/

/-- A 2D table whose slot 0 is active and every other slot is free. -/
def table2d_one : Table2D :=
  Function.update g_handles_2d_start 0 ⟨some 1, some 1, true⟩

/-- A 3D table whose slot 0 is active and every other slot is free. -/
def table3d_one : Table3D :=
  Function.update g_handles_start 0 ⟨some 1, some 1, true⟩

/-- A surface table whose slot 0 is active and every other slot is free. -/
def tableS_one : TableS :=
  Function.update g_handles_s_start 0 ⟨some 1, some 1, true⟩

/-- An empty allocation state. -/
def alloc0 : AllocState := ⟨0, []⟩

/-- A 2D table with every slot active (exhausted capacity). -/
def table2d_full : Table2D := fun _ => ⟨some 1, some 1, true⟩

/-! ## Helper lemmas -/

theorem counts_loop_2d (t : Table2D) :
    ∀ fuel i, available_handles_2d_loop t fuel i + active_count_2d_loop t fuel i = fuel := by
  intro fuel
  induction fuel with
  | zero => intro i; simp [available_handles_2d_loop, active_count_2d_loop]
  | succ n ih =>
    intro i
    have h := ih (i + 1)
    by_cases ha : (t i).active = true
    · simp [available_handles_2d_loop, active_count_2d_loop, ha]
      omega
    · simp [available_handles_2d_loop, active_count_2d_loop, ha]
      omega

theorem counts_loop_3d (t : Table3D) :
    ∀ fuel i, available_handles_loop t fuel i + active_count_3d_loop t fuel i = fuel := by
  intro fuel
  induction fuel with
  | zero => intro i; simp [available_handles_loop, active_count_3d_loop]
  | succ n ih =>
    intro i
    have h := ih (i + 1)
    by_cases ha : (t i).active = true
    · simp [available_handles_loop, active_count_3d_loop, ha]
      omega
    · simp [available_handles_loop, active_count_3d_loop, ha]
      omega

theorem counts_loop_s (t : TableS) :
    ∀ fuel i, available_handles_s_loop t fuel i + active_count_s_loop t fuel i = fuel := by
  intro fuel
  induction fuel with
  | zero => intro i; simp [available_handles_s_loop, active_count_s_loop]
  | succ n ih =>
    intro i
    have h := ih (i + 1)
    by_cases ha : (t i).active = true
    · simp [available_handles_s_loop, active_count_s_loop, ha]
      omega
    · simp [available_handles_s_loop, active_count_s_loop, ha]
      omega

/-- Full case analysis of the free-slot scan: either every slot in the
window is active and the scan fails, or the scan returns the least inactive
index in the window. -/
theorem find_loop_2d_spec (t : Table2D) :
    ∀ fuel i,
      (find_free_handle_2d_loop t fuel i = -1 ∧
        ∀ j, i ≤ j → j < i + fuel → (t j).active = true) ∨
      (∃ r, find_free_handle_2d_loop t fuel i = Int.ofNat r ∧ i ≤ r ∧ r < i + fuel ∧
        (t r).active = false ∧ ∀ j, i ≤ j → j < r → (t j).active = true) := by
  intro fuel
  induction fuel with
  | zero =>
    intro i
    left
    constructor
    · rfl
    · intro j h1 h2; omega
  | succ n ih =>
    intro i
    by_cases ha : (t i).active = false
    · right
      refine ⟨i, ?_, le_refl i, by omega, ha, ?_⟩
      · simp [find_free_handle_2d_loop, ha]
      · intro j h1 h2; omega
    · have ha' : (t i).active = true := by
        cases hb : (t i).active
        · exact absurd hb ha
        · rfl
      have hstep : find_free_handle_2d_loop t (n + 1) i =
          find_free_handle_2d_loop t n (i + 1) := by
        simp [find_free_handle_2d_loop, ha']
      rcases ih (i + 1) with ⟨heq, hall⟩ | ⟨r, heq, hr1, hr2, hr3, hr4⟩
      · left
        refine ⟨by rw [hstep]; exact heq, ?_⟩
        intro j h1 h2
        by_cases hj : j = i
        · rw [hj]; exact ha'
        · exact hall j (by omega) (by omega)
      · right
        refine ⟨r, by rw [hstep]; exact heq, by omega, by omega, hr3, ?_⟩
        intro j h1 h2
        by_cases hj : j = i
        · rw [hj]; exact ha'
        · exact hr4 j (by omega) h2

/-- The free-slot scan depends only on the activity pattern of the window. -/
theorem find_loop_2d_congr (t t' : Table2D) :
    ∀ fuel i, (∀ j, i ≤ j → j < i + fuel → (t j).active = (t' j).active) →
      find_free_handle_2d_loop t fuel i = find_free_handle_2d_loop t' fuel i := by
  intro fuel
  induction fuel with
  | zero => intro i h; rfl
  | succ n ih =>
    intro i h
    have hi : (t i).active = (t' i).active := h i (le_refl i) (by omega)
    by_cases ha : (t i).active = false
    · simp [find_free_handle_2d_loop, ha, ← hi]
    · have ha' : (t i).active = true := by
        cases hb : (t i).active
        · exact absurd hb ha
        · rfl
      have hb' : (t' i).active = true := by rw [← hi]; exact ha'
      simp only [find_free_handle_2d_loop, ha', hb']
      simp only [Bool.true_eq_false, if_false]
      exact ih (i + 1) (fun j h1 h2 => h j (by omega) (by omega))

/-- If the whole window is inactive-free, the scan fails. -/
theorem find_loop_2d_of_all_active (t : Table2D) :
    ∀ fuel i, (∀ j, i ≤ j → j < i + fuel → (t j).active = true) →
      find_free_handle_2d_loop t fuel i = -1 := by
  intro fuel i hall
  rcases find_loop_2d_spec t fuel i with ⟨heq, _⟩ | ⟨r, _, hr1, hr2, hr3, _⟩
  · exact heq
  · rw [hall r hr1 hr2] at hr3
    exact absurd hr3 (by simp)

theorem validate_handle_2d_true_iff (t : Table2D) (h : Int) :
    validate_handle_2d t h = true ↔
      0 ≤ h ∧ h < (MAX_HANDLES : Int) ∧ (t h.toNat).active = true := by
  unfold validate_handle_2d
  by_cases hc : h < 0 ∨ (MAX_HANDLES : Int) ≤ h
  · rw [if_pos hc]
    constructor
    · intro hf; exact absurd hf (by simp)
    · intro ⟨h1, h2, _⟩; omega
  · rw [if_neg hc]
    push_neg at hc
    constructor
    · intro ha; exact ⟨hc.1, hc.2, ha⟩
    · intro ⟨_, _, ha⟩; exact ha

theorem validate_handle_2d_false_iff (t : Table2D) (h : Int) :
    validate_handle_2d t h = false ↔
      h < 0 ∨ (MAX_HANDLES : Int) ≤ h ∨ (t h.toNat).active = false := by
  have hiff := validate_handle_2d_true_iff t h
  cases hv : validate_handle_2d t h
  · rw [hv] at hiff
    simp only [Bool.false_eq_true, false_iff] at hiff
    push_neg at hiff
    constructor
    · intro _
      by_cases h1 : h < 0
      · exact Or.inl h1
      · by_cases h2 : (MAX_HANDLES : Int) ≤ h
        · exact Or.inr (Or.inl h2)
        · refine Or.inr (Or.inr ?_)
          have := hiff (by omega) (by omega)
          cases hb : (t h.toNat).active
          · rfl
          · exact absurd hb this
    · intro _; rfl
  · rw [hv] at hiff
    simp only [true_iff] at hiff
    constructor
    · intro hf; exact absurd hf (by simp)
    · intro hd
      rcases hd with h1 | h2 | h3
      · omega
      · omega
      · rw [hiff.2.2] at h3
        exact absurd h3 (by simp)

theorem validate_handle_3d_true_iff (t : Table3D) (h : Int) :
    validate_handle t h = true ↔
      0 ≤ h ∧ h < (MAX_HANDLES : Int) ∧ (t h.toNat).active = true := by
  unfold validate_handle
  by_cases hc : h < 0 ∨ (MAX_HANDLES : Int) ≤ h
  · rw [if_pos hc]
    constructor
    · intro hf; exact absurd hf (by simp)
    · intro ⟨h1, h2, _⟩; omega
  · rw [if_neg hc]
    push_neg at hc
    constructor
    · intro ha; exact ⟨hc.1, hc.2, ha⟩
    · intro ⟨_, _, ha⟩; exact ha

theorem validate_handle_s_true_iff (t : TableS) (h : Int) :
    validate_handle_s t h = true ↔
      0 ≤ h ∧ h < (MAX_HANDLES : Int) ∧ (t h.toNat).active = true := by
  unfold validate_handle_s
  by_cases hc : h < 0 ∨ (MAX_HANDLES : Int) ≤ h
  · rw [if_pos hc]
    constructor
    · intro hf; exact absurd hf (by simp)
    · intro ⟨h1, h2, _⟩; omega
  · rw [if_neg hc]
    push_neg at hc
    constructor
    · intro ha; exact ⟨hc.1, hc.2, ha⟩
    · intro ⟨_, _, ha⟩; exact ha

theorem mallocBuf_pos (ok : Nat → Bool) (n : Nat) (L : List Nat) (h : ok n = true) :
    mallocBuf ok ⟨n, L⟩ = (some n, ⟨n + 1, n :: L⟩) := by
  simp [mallocBuf, h]

theorem mallocBuf_neg (ok : Nat → Bool) (n : Nat) (L : List Nat) (h : ok n = false) :
    mallocBuf ok ⟨n, L⟩ = (none, ⟨n + 1, L⟩) := by
  simp [mallocBuf, h]

theorem erase_head (x : Nat) (l : List Nat) : (x :: l).erase x = l := by
  simp [List.erase_cons]

theorem erase_shadow (x y : Nat) (l : List Nat) (h : x ≠ y) :
    (x :: l).erase y = x :: l.erase y := by
  simp [List.erase_cons, h]

/-- A zero available count means every slot of the window is active. -/
theorem avail_loop_2d_zero (t : Table2D) :
    ∀ fuel i, available_handles_2d_loop t fuel i = 0 →
      ∀ j, i ≤ j → j < i + fuel → (t j).active = true := by
  intro fuel
  induction fuel with
  | zero => intro i _ j h1 h2; omega
  | succ n ih =>
    intro i h j h1 h2
    by_cases ha : (t i).active = true
    · by_cases hj : j = i
      · rw [hj]; exact ha
      · have h' : available_handles_2d_loop t n (i + 1) = 0 := by
          rw [available_handles_2d_loop] at h
          simp [ha] at h
          exact h
        exact ih (i + 1) h' j (by omega) (by omega)
    · exfalso
      rw [available_handles_2d_loop] at h
      have hfa : (t i).active = false := by
        cases hb : (t i).active
        · rfl
        · exact absurd hb ha
      simp [hfa] at h

/-- When the table is exhausted, init fails and changes nothing. -/
theorem mmg2d_init_of_available_zero (k : KernelInit) (t : Table2D)
    (h : mmg2d_get_available_handles t = 0) : mmg2d_init k t = (-1, t) := by
  have hall : ∀ j, 0 ≤ j → j < 0 + MAX_HANDLES → (t j).active = true :=
    avail_loop_2d_zero t MAX_HANDLES 0 h
  have hfind : find_free_handle_2d t = -1 :=
    find_loop_2d_of_all_active t MAX_HANDLES 0 hall
  unfold mmg2d_init
  rw [hfind]
  simp

/-- When the kernel construction fails, init fails and changes nothing. -/
theorem mmg2d_init_of_constr_fail (k : KernelInit) (t : Table2D)
    (h : k.result ≠ 1 ∨ k.mesh = none) : mmg2d_init k t = (-1, t) := by
  unfold mmg2d_init
  by_cases hf : find_free_handle_2d t < 0
  · simp [hf]
  · rw [if_neg hf, if_pos h]

/-- When a slot is free and construction succeeds, init binds the fresh
instance into the slot the scan returned. -/
theorem mmg2d_init_success (k : KernelInit) (t : Table2D) (r : Nat)
    (hk : k.result = 1) (hm : k.mesh ≠ none)
    (hf : find_free_handle_2d t = Int.ofNat r) :
    mmg2d_init k t = (Int.ofNat r, Function.update t r ⟨k.mesh, k.sol, true⟩) := by
  unfold mmg2d_init
  rw [hf]
  have hcond : ¬(k.result ≠ 1 ∨ k.mesh = none) := by
    push_neg
    exact ⟨hk, hm⟩
  dsimp only
  simp only [Int.ofNat_eq_coe]
  rw [if_neg (show ¬((r : Int) < 0) by omega), if_neg hcond]
  simp

/-- If some slot of the table is inactive, the scan returns an index. -/
theorem find_free_handle_2d_of_inactive (t : Table2D) (i : Nat)
    (hi : i < MAX_HANDLES) (ha : (t i).active = false) :
    ∃ r, find_free_handle_2d t = Int.ofNat r := by
  rcases find_loop_2d_spec t MAX_HANDLES 0 with ⟨_, hall⟩ | ⟨r, heq, _⟩
  · rw [hall i (by omega) (by omega)] at ha
    exact absurd ha (by simp)
  · exact ⟨r, heq⟩

/-- Exhaustive case analysis of mmg2d_init: either it fails leaving the
table untouched, or the scan found an inactive slot, construction
succeeded, and the fresh pair is bound into exactly that slot. -/
theorem mmg2d_init_cases (k : KernelInit) (t : Table2D) :
    mmg2d_init k t = (-1, t) ∨
    ∃ r : Nat, find_free_handle_2d t = Int.ofNat r ∧ k.result = 1 ∧ k.mesh ≠ none ∧
      r < MAX_HANDLES ∧ (t r).active = false ∧
      mmg2d_init k t = (Int.ofNat r, Function.update t r ⟨k.mesh, k.sol, true⟩) := by
  by_cases hk : k.result ≠ 1 ∨ k.mesh = none
  · exact Or.inl (mmg2d_init_of_constr_fail k t hk)
  · push_neg at hk
    rcases find_loop_2d_spec t MAX_HANDLES 0 with ⟨heq, _⟩ | ⟨r, heq, _, hr2, hr3, _⟩
    · left
      unfold mmg2d_init
      rw [show find_free_handle_2d t = -1 from heq]
      simp
    · right
      exact ⟨r, heq, hk.1, hk.2, by omega, hr3,
        mmg2d_init_success k t r hk.1 hk.2 heq⟩

/-- A successful init yields a handle accepted by the validity check. -/
theorem mmg2d_init_success_validates (k : KernelInit) (t : Table2D) (i : Nat)
    (hi : i < MAX_HANDLES) (ha : (t i).active = false)
    (hk : k.result = 1) (hm : k.mesh ≠ none) :
    validate_handle_2d (mmg2d_init k t).2 (mmg2d_init k t).1 = true := by
  rcases find_loop_2d_spec t MAX_HANDLES 0 with ⟨_, hall⟩ | ⟨r, heq, _, hr2, _, _⟩
  · rw [hall i (by omega) (by omega)] at ha
    exact absurd ha (by simp)
  · have hinit := mmg2d_init_success k t r hk hm heq
    rw [hinit, validate_handle_2d_true_iff]
    simp only [Int.ofNat_eq_coe, Int.toNat_natCast]
    refine ⟨by omega, by omega, ?_⟩
    rw [Function.update_same]

/-- Rollback discipline of mmg2d_get_vertices: a no-buffer result leaves the
live allocation set exactly as before (all buffers allocated during the call
released), and a returned buffer is fresh, is the only new live allocation,
and comes with the vertex count after a successful kernel call. -/
theorem mmg2d_get_vertices_spec (ms : KernelMeshSize2D) (g : Int) (ok : Nat → Bool)
    (t : Table2D) (h : Int) (n : Nat) (L : List Nat) :
    ((mmg2d_get_vertices ms g ok t ⟨n, L⟩ h).1.1 = none →
      (mmg2d_get_vertices ms g ok t ⟨n, L⟩ h).1.2 = 0 ∧
      (mmg2d_get_vertices ms g ok t ⟨n, L⟩ h).2.2.live = L) ∧
    (∀ b, (mmg2d_get_vertices ms g ok t ⟨n, L⟩ h).1.1 = some b →
      g = 1 ∧ (mmg2d_get_vertices ms g ok t ⟨n, L⟩ h).1.2 = ms.np ∧
      (mmg2d_get_vertices ms g ok t ⟨n, L⟩ h).2.2.live = b :: L ∧
      ((∀ x ∈ L, x < n) → b ∉ L)) := by
  by_cases hv : validate_handle_2d t h = false
  · have hR : mmg2d_get_vertices ms g ok t ⟨n, L⟩ h = ((none, 0), t, ⟨n, L⟩) := by
      simp [mmg2d_get_vertices, hv]
    refine ⟨fun _ => ?_, fun b hb => ?_⟩
    · rw [hR]; exact ⟨rfl, rfl⟩
    · rw [hR] at hb; simp at hb
  · by_cases hr : ms.result = 1
    · by_cases hnp : ms.np = 0
      · have hR : mmg2d_get_vertices ms g ok t ⟨n, L⟩ h = ((none, 0), t, ⟨n, L⟩) := by
          simp [mmg2d_get_vertices, hv, hr, hnp]
        refine ⟨fun _ => ?_, fun b hb => ?_⟩
        · rw [hR]; exact ⟨rfl, rfl⟩
        · rw [hR] at hb; simp at hb
      · by_cases h0 : ok n = true
        · have d1 : n + 1 + 1 ≠ n := by omega
          have d2 : n + 1 + 1 + 1 ≠ n := by omega
          have d3 : n + 1 + 1 + 1 ≠ n + 1 := by omega
          by_cases h1 : ok (n + 1) = true
          · by_cases h2 : ok (n + 1 + 1) = true
            · by_cases h3 : ok (n + 1 + 1 + 1) = true
              · by_cases hg : g = 1
                · have hR : mmg2d_get_vertices ms g ok t ⟨n, L⟩ h =
                      ((some n, ms.np), t, ⟨n + 1 + 1 + 1 + 1, n :: L⟩) := by
                    simp [mmg2d_get_vertices, hv, hr, hnp, mallocBuf, h0, h1, h2, h3,
                      hg, cleanup4, freeBuf, List.erase_cons, d1, d2, d3]
                  refine ⟨fun hnone => ?_, fun b hb => ?_⟩
                  · rw [hR] at hnone; simp at hnone
                  · rw [hR] at hb
                    have hbn : b = n := by simpa using hb.symm
                    subst hbn
                    rw [hR]
                    exact ⟨hg, rfl, rfl, fun hL hmem => absurd (hL b hmem) (by omega)⟩
                · have hR : mmg2d_get_vertices ms g ok t ⟨n, L⟩ h =
                      ((none, 0), t, ⟨n + 1 + 1 + 1 + 1, L⟩) := by
                    simp [mmg2d_get_vertices, hv, hr, hnp, mallocBuf, h0, h1, h2, h3,
                      hg, cleanup4, freeBuf, List.erase_cons, d1, d2, d3]
                  refine ⟨fun _ => ?_, fun b hb => ?_⟩
                  · rw [hR]; exact ⟨rfl, rfl⟩
                  · rw [hR] at hb; simp at hb
              · have hR : mmg2d_get_vertices ms g ok t ⟨n, L⟩ h =
                    ((none, 0), t, ⟨n + 1 + 1 + 1 + 1, L⟩) := by
                  simp [mmg2d_get_vertices, hv, hr, hnp, mallocBuf, h0, h1, h2, h3,
                    cleanup4, freeBuf, List.erase_cons, d1, d2, d3]
                refine ⟨fun _ => ?_, fun b hb => ?_⟩
                · rw [hR]; exact ⟨rfl, rfl⟩
                · rw [hR] at hb; simp at hb
            · have hR : mmg2d_get_vertices ms g ok t ⟨n, L⟩ h =
                  ((none, 0), t, ⟨n + 1 + 1 + 1, L⟩) := by
                simp [mmg2d_get_vertices, hv, hr, hnp, mallocBuf, h0, h1, h2,
                  cleanup4, freeBuf, List.erase_cons, d1, d2, d3]
              refine ⟨fun _ => ?_, fun b hb => ?_⟩
              · rw [hR]; exact ⟨rfl, rfl⟩
              · rw [hR] at hb; simp at hb
          · have hR : mmg2d_get_vertices ms g ok t ⟨n, L⟩ h =
                ((none, 0), t, ⟨n + 1 + 1, L⟩) := by
              simp [mmg2d_get_vertices, hv, hr, hnp, mallocBuf, h0, h1,
                cleanup4, freeBuf, List.erase_cons, d1, d2, d3]
            refine ⟨fun _ => ?_, fun b hb => ?_⟩
            · rw [hR]; exact ⟨rfl, rfl⟩
            · rw [hR] at hb; simp at hb
        · have hR : mmg2d_get_vertices ms g ok t ⟨n, L⟩ h =
              ((none, 0), t, ⟨n + 1, L⟩) := by
            simp [mmg2d_get_vertices, hv, hr, hnp, mallocBuf, h0,
              cleanup4, freeBuf]
          refine ⟨fun _ => ?_, fun b hb => ?_⟩
          · rw [hR]; exact ⟨rfl, rfl⟩
          · rw [hR] at hb; simp at hb
    · have hR : mmg2d_get_vertices ms g ok t ⟨n, L⟩ h = ((none, 0), t, ⟨n, L⟩) := by
        simp [mmg2d_get_vertices, hv, hr]
      refine ⟨fun _ => ?_, fun b hb => ?_⟩
      · rw [hR]; exact ⟨rfl, rfl⟩
      · rw [hR] at hb; simp at hb

/-- Rollback discipline of mmg2d_get_triangles (three-buffer form). -/
theorem mmg2d_get_triangles_spec (ms : KernelMeshSize2D) (g : Int) (ok : Nat → Bool)
    (t : Table2D) (h : Int) (n : Nat) (L : List Nat) :
    ((mmg2d_get_triangles ms g ok t ⟨n, L⟩ h).1.1 = none →
      (mmg2d_get_triangles ms g ok t ⟨n, L⟩ h).1.2 = 0 ∧
      (mmg2d_get_triangles ms g ok t ⟨n, L⟩ h).2.2.live = L) ∧
    (∀ b, (mmg2d_get_triangles ms g ok t ⟨n, L⟩ h).1.1 = some b →
      g = 1 ∧ (mmg2d_get_triangles ms g ok t ⟨n, L⟩ h).1.2 = ms.nt ∧
      (mmg2d_get_triangles ms g ok t ⟨n, L⟩ h).2.2.live = b :: L ∧
      ((∀ x ∈ L, x < n) → b ∉ L)) := by
  by_cases hv : validate_handle_2d t h = false
  · have hR : mmg2d_get_triangles ms g ok t ⟨n, L⟩ h = ((none, 0), t, ⟨n, L⟩) := by
      simp [mmg2d_get_triangles, hv]
    refine ⟨fun _ => ?_, fun b hb => ?_⟩
    · rw [hR]; exact ⟨rfl, rfl⟩
    · rw [hR] at hb; simp at hb
  · by_cases hr : ms.result = 1
    · by_cases hnt : ms.nt = 0
      · have hR : mmg2d_get_triangles ms g ok t ⟨n, L⟩ h = ((none, 0), t, ⟨n, L⟩) := by
          simp [mmg2d_get_triangles, hv, hr, hnt]
        refine ⟨fun _ => ?_, fun b hb => ?_⟩
        · rw [hR]; exact ⟨rfl, rfl⟩
        · rw [hR] at hb; simp at hb
      · by_cases h0 : ok n = true
        · have d1 : n + 1 + 1 ≠ n := by omega
          by_cases h1 : ok (n + 1) = true
          · by_cases h2 : ok (n + 1 + 1) = true
            · by_cases hg : g = 1
              · have hR : mmg2d_get_triangles ms g ok t ⟨n, L⟩ h =
                    ((some n, ms.nt), t, ⟨n + 1 + 1 + 1, n :: L⟩) := by
                  simp [mmg2d_get_triangles, hv, hr, hnt, mallocBuf, h0, h1, h2,
                    hg, cleanup3, freeBuf, List.erase_cons, d1]
                refine ⟨fun hnone => ?_, fun b hb => ?_⟩
                · rw [hR] at hnone; simp at hnone
                · rw [hR] at hb
                  have hbn : b = n := by simpa using hb.symm
                  subst hbn
                  rw [hR]
                  exact ⟨hg, rfl, rfl, fun hL hmem => absurd (hL b hmem) (by omega)⟩
              · have hR : mmg2d_get_triangles ms g ok t ⟨n, L⟩ h =
                    ((none, 0), t, ⟨n + 1 + 1 + 1, L⟩) := by
                  simp [mmg2d_get_triangles, hv, hr, hnt, mallocBuf, h0, h1, h2,
                    hg, cleanup3, freeBuf, List.erase_cons, d1]
                refine ⟨fun _ => ?_, fun b hb => ?_⟩
                · rw [hR]; exact ⟨rfl, rfl⟩
                · rw [hR] at hb; simp at hb
            · have hR : mmg2d_get_triangles ms g ok t ⟨n, L⟩ h =
                  ((none, 0), t, ⟨n + 1 + 1 + 1, L⟩) := by
                simp [mmg2d_get_triangles, hv, hr, hnt, mallocBuf, h0, h1, h2,
                  cleanup3, freeBuf, List.erase_cons, d1]
              refine ⟨fun _ => ?_, fun b hb => ?_⟩
              · rw [hR]; exact ⟨rfl, rfl⟩
              · rw [hR] at hb; simp at hb
          · have hR : mmg2d_get_triangles ms g ok t ⟨n, L⟩ h =
                ((none, 0), t, ⟨n + 1 + 1, L⟩) := by
              simp [mmg2d_get_triangles, hv, hr, hnt, mallocBuf, h0, h1,
                cleanup3, freeBuf, List.erase_cons, d1]
            refine ⟨fun _ => ?_, fun b hb => ?_⟩
            · rw [hR]; exact ⟨rfl, rfl⟩
            · rw [hR] at hb; simp at hb
        · have hR : mmg2d_get_triangles ms g ok t ⟨n, L⟩ h =
              ((none, 0), t, ⟨n + 1, L⟩) := by
            simp [mmg2d_get_triangles, hv, hr, hnt, mallocBuf, h0,
              cleanup3, freeBuf]
          refine ⟨fun _ => ?_, fun b hb => ?_⟩
          · rw [hR]; exact ⟨rfl, rfl⟩
          · rw [hR] at hb; simp at hb
    · have hR : mmg2d_get_triangles ms g ok t ⟨n, L⟩ h = ((none, 0), t, ⟨n, L⟩) := by
        simp [mmg2d_get_triangles, hv, hr]
      refine ⟨fun _ => ?_, fun b hb => ?_⟩
      · rw [hR]; exact ⟨rfl, rfl⟩
      · rw [hR] at hb; simp at hb

/-- Rollback discipline of mmg2d_get_edges (four-buffer form). -/
theorem mmg2d_get_edges_spec (ms : KernelMeshSize2D) (g : Int) (ok : Nat → Bool)
    (t : Table2D) (h : Int) (n : Nat) (L : List Nat) :
    ((mmg2d_get_edges ms g ok t ⟨n, L⟩ h).1.1 = none →
      (mmg2d_get_edges ms g ok t ⟨n, L⟩ h).1.2 = 0 ∧
      (mmg2d_get_edges ms g ok t ⟨n, L⟩ h).2.2.live = L) ∧
    (∀ b, (mmg2d_get_edges ms g ok t ⟨n, L⟩ h).1.1 = some b →
      g = 1 ∧ (mmg2d_get_edges ms g ok t ⟨n, L⟩ h).1.2 = ms.na ∧
      (mmg2d_get_edges ms g ok t ⟨n, L⟩ h).2.2.live = b :: L ∧
      ((∀ x ∈ L, x < n) → b ∉ L)) := by
  by_cases hv : validate_handle_2d t h = false
  · have hR : mmg2d_get_edges ms g ok t ⟨n, L⟩ h = ((none, 0), t, ⟨n, L⟩) := by
      simp [mmg2d_get_edges, hv]
    refine ⟨fun _ => ?_, fun b hb => ?_⟩
    · rw [hR]; exact ⟨rfl, rfl⟩
    · rw [hR] at hb; simp at hb
  · by_cases hr : ms.result = 1
    · by_cases hna : ms.na = 0
      · have hR : mmg2d_get_edges ms g ok t ⟨n, L⟩ h = ((none, 0), t, ⟨n, L⟩) := by
          simp [mmg2d_get_edges, hv, hr, hna]
        refine ⟨fun _ => ?_, fun b hb => ?_⟩
        · rw [hR]; exact ⟨rfl, rfl⟩
        · rw [hR] at hb; simp at hb
      · by_cases h0 : ok n = true
        · have d1 : n + 1 + 1 ≠ n := by omega
          have d2 : n + 1 + 1 + 1 ≠ n := by omega
          have d3 : n + 1 + 1 + 1 ≠ n + 1 := by omega
          by_cases h1 : ok (n + 1) = true
          · by_cases h2 : ok (n + 1 + 1) = true
            · by_cases h3 : ok (n + 1 + 1 + 1) = true
              · by_cases hg : g = 1
                · have hR : mmg2d_get_edges ms g ok t ⟨n, L⟩ h =
                      ((some n, ms.na), t, ⟨n + 1 + 1 + 1 + 1, n :: L⟩) := by
                    simp [mmg2d_get_edges, hv, hr, hna, mallocBuf, h0, h1, h2, h3,
                      hg, cleanup4, freeBuf, List.erase_cons, d1, d2, d3]
                  refine ⟨fun hnone => ?_, fun b hb => ?_⟩
                  · rw [hR] at hnone; simp at hnone
                  · rw [hR] at hb
                    have hbn : b = n := by simpa using hb.symm
                    subst hbn
                    rw [hR]
                    exact ⟨hg, rfl, rfl, fun hL hmem => absurd (hL b hmem) (by omega)⟩
                · have hR : mmg2d_get_edges ms g ok t ⟨n, L⟩ h =
                      ((none, 0), t, ⟨n + 1 + 1 + 1 + 1, L⟩) := by
                    simp [mmg2d_get_edges, hv, hr, hna, mallocBuf, h0, h1, h2, h3,
                      hg, cleanup4, freeBuf, List.erase_cons, d1, d2, d3]
                  refine ⟨fun _ => ?_, fun b hb => ?_⟩
                  · rw [hR]; exact ⟨rfl, rfl⟩
                  · rw [hR] at hb; simp at hb
              · have hR : mmg2d_get_edges ms g ok t ⟨n, L⟩ h =
                    ((none, 0), t, ⟨n + 1 + 1 + 1 + 1, L⟩) := by
                  simp [mmg2d_get_edges, hv, hr, hna, mallocBuf, h0, h1, h2, h3,
                    cleanup4, freeBuf, List.erase_cons, d1, d2, d3]
                refine ⟨fun _ => ?_, fun b hb => ?_⟩
                · rw [hR]; exact ⟨rfl, rfl⟩
                · rw [hR] at hb; simp at hb
            · have hR : mmg2d_get_edges ms g ok t ⟨n, L⟩ h =
                  ((none, 0), t, ⟨n + 1 + 1 + 1, L⟩) := by
                simp [mmg2d_get_edges, hv, hr, hna, mallocBuf, h0, h1, h2,
                  cleanup4, freeBuf, List.erase_cons, d1, d2, d3]
              refine ⟨fun _ => ?_, fun b hb => ?_⟩
              · rw [hR]; exact ⟨rfl, rfl⟩
              · rw [hR] at hb; simp at hb
          · have hR : mmg2d_get_edges ms g ok t ⟨n, L⟩ h =
                ((none, 0), t, ⟨n + 1 + 1, L⟩) := by
              simp [mmg2d_get_edges, hv, hr, hna, mallocBuf, h0, h1,
                cleanup4, freeBuf, List.erase_cons, d1, d2, d3]
            refine ⟨fun _ => ?_, fun b hb => ?_⟩
            · rw [hR]; exact ⟨rfl, rfl⟩
            · rw [hR] at hb; simp at hb
        · have hR : mmg2d_get_edges ms g ok t ⟨n, L⟩ h =
              ((none, 0), t, ⟨n + 1, L⟩) := by
            simp [mmg2d_get_edges, hv, hr, hna, mallocBuf, h0,
              cleanup4, freeBuf]
          refine ⟨fun _ => ?_, fun b hb => ?_⟩
          · rw [hR]; exact ⟨rfl, rfl⟩
          · rw [hR] at hb; simp at hb
    · have hR : mmg2d_get_edges ms g ok t ⟨n, L⟩ h = ((none, 0), t, ⟨n, L⟩) := by
        simp [mmg2d_get_edges, hv, hr]
      refine ⟨fun _ => ?_, fun b hb => ?_⟩
      · rw [hR]; exact ⟨rfl, rfl⟩
      · rw [hR] at hb; simp at hb

/-- Rollback discipline of mmgs_get_vertices: a no-buffer result leaves the
live allocation set exactly as before (all buffers allocated during the call
released), and a returned buffer is fresh, is the only new live allocation,
and comes with the vertex count after a successful kernel call. -/
theorem mmgs_get_vertices_spec (ms : KernelMeshSizeS) (g : Int) (ok : Nat → Bool)
    (t : TableS) (h : Int) (n : Nat) (L : List Nat) :
    ((mmgs_get_vertices ms g ok t ⟨n, L⟩ h).1.1 = none →
      (mmgs_get_vertices ms g ok t ⟨n, L⟩ h).1.2 = 0 ∧
      (mmgs_get_vertices ms g ok t ⟨n, L⟩ h).2.2.live = L) ∧
    (∀ b, (mmgs_get_vertices ms g ok t ⟨n, L⟩ h).1.1 = some b →
      g = 1 ∧ (mmgs_get_vertices ms g ok t ⟨n, L⟩ h).1.2 = ms.np ∧
      (mmgs_get_vertices ms g ok t ⟨n, L⟩ h).2.2.live = b :: L ∧
      ((∀ x ∈ L, x < n) → b ∉ L)) := by
  by_cases hv : validate_handle_s t h = false
  · have hR : mmgs_get_vertices ms g ok t ⟨n, L⟩ h = ((none, 0), t, ⟨n, L⟩) := by
      simp [mmgs_get_vertices, hv]
    refine ⟨fun _ => ?_, fun b hb => ?_⟩
    · rw [hR]; exact ⟨rfl, rfl⟩
    · rw [hR] at hb; simp at hb
  · by_cases hr : ms.result = 1
    · by_cases hnp : ms.np = 0
      · have hR : mmgs_get_vertices ms g ok t ⟨n, L⟩ h = ((none, 0), t, ⟨n, L⟩) := by
          simp [mmgs_get_vertices, hv, hr, hnp]
        refine ⟨fun _ => ?_, fun b hb => ?_⟩
        · rw [hR]; exact ⟨rfl, rfl⟩
        · rw [hR] at hb; simp at hb
      · by_cases h0 : ok n = true
        · have d1 : n + 1 + 1 ≠ n := by omega
          have d2 : n + 1 + 1 + 1 ≠ n := by omega
          have d3 : n + 1 + 1 + 1 ≠ n + 1 := by omega
          by_cases h1 : ok (n + 1) = true
          · by_cases h2 : ok (n + 1 + 1) = true
            · by_cases h3 : ok (n + 1 + 1 + 1) = true
              · by_cases hg : g = 1
                · have hR : mmgs_get_vertices ms g ok t ⟨n, L⟩ h =
                      ((some n, ms.np), t, ⟨n + 1 + 1 + 1 + 1, n :: L⟩) := by
                    simp [mmgs_get_vertices, hv, hr, hnp, mallocBuf, h0, h1, h2, h3,
                      hg, cleanup4, freeBuf, List.erase_cons, d1, d2, d3]
                  refine ⟨fun hnone => ?_, fun b hb => ?_⟩
                  · rw [hR] at hnone; simp at hnone
                  · rw [hR] at hb
                    have hbn : b = n := by simpa using hb.symm
                    subst hbn
                    rw [hR]
                    exact ⟨hg, rfl, rfl, fun hL hmem => absurd (hL b hmem) (by omega)⟩
                · have hR : mmgs_get_vertices ms g ok t ⟨n, L⟩ h =
                      ((none, 0), t, ⟨n + 1 + 1 + 1 + 1, L⟩) := by
                    simp [mmgs_get_vertices, hv, hr, hnp, mallocBuf, h0, h1, h2, h3,
                      hg, cleanup4, freeBuf, List.erase_cons, d1, d2, d3]
                  refine ⟨fun _ => ?_, fun b hb => ?_⟩
                  · rw [hR]; exact ⟨rfl, rfl⟩
                  · rw [hR] at hb; simp at hb
              · have hR : mmgs_get_vertices ms g ok t ⟨n, L⟩ h =
                    ((none, 0), t, ⟨n + 1 + 1 + 1 + 1, L⟩) := by
                  simp [mmgs_get_vertices, hv, hr, hnp, mallocBuf, h0, h1, h2, h3,
                    cleanup4, freeBuf, List.erase_cons, d1, d2, d3]
                refine ⟨fun _ => ?_, fun b hb => ?_⟩
                · rw [hR]; exact ⟨rfl, rfl⟩
                · rw [hR] at hb; simp at hb
            · have hR : mmgs_get_vertices ms g ok t ⟨n, L⟩ h =
                  ((none, 0), t, ⟨n + 1 + 1 + 1, L⟩) := by
                simp [mmgs_get_vertices, hv, hr, hnp, mallocBuf, h0, h1, h2,
                  cleanup4, freeBuf, List.erase_cons, d1, d2, d3]
              refine ⟨fun _ => ?_, fun b hb => ?_⟩
              · rw [hR]; exact ⟨rfl, rfl⟩
              · rw [hR] at hb; simp at hb
          · have hR : mmgs_get_vertices ms g ok t ⟨n, L⟩ h =
                ((none, 0), t, ⟨n + 1 + 1, L⟩) := by
              simp [mmgs_get_vertices, hv, hr, hnp, mallocBuf, h0, h1,
                cleanup4, freeBuf, List.erase_cons, d1, d2, d3]
            refine ⟨fun _ => ?_, fun b hb => ?_⟩
            · rw [hR]; exact ⟨rfl, rfl⟩
            · rw [hR] at hb; simp at hb
        · have hR : mmgs_get_vertices ms g ok t ⟨n, L⟩ h =
              ((none, 0), t, ⟨n + 1, L⟩) := by
            simp [mmgs_get_vertices, hv, hr, hnp, mallocBuf, h0,
              cleanup4, freeBuf]
          refine ⟨fun _ => ?_, fun b hb => ?_⟩
          · rw [hR]; exact ⟨rfl, rfl⟩
          · rw [hR] at hb; simp at hb
    · have hR : mmgs_get_vertices ms g ok t ⟨n, L⟩ h = ((none, 0), t, ⟨n, L⟩) := by
        simp [mmgs_get_vertices, hv, hr]
      refine ⟨fun _ => ?_, fun b hb => ?_⟩
      · rw [hR]; exact ⟨rfl, rfl⟩
      · rw [hR] at hb; simp at hb

/-- Rollback discipline of mmgs_get_triangles (three-buffer form). -/
theorem mmgs_get_triangles_spec (ms : KernelMeshSizeS) (g : Int) (ok : Nat → Bool)
    (t : TableS) (h : Int) (n : Nat) (L : List Nat) :
    ((mmgs_get_triangles ms g ok t ⟨n, L⟩ h).1.1 = none →
      (mmgs_get_triangles ms g ok t ⟨n, L⟩ h).1.2 = 0 ∧
      (mmgs_get_triangles ms g ok t ⟨n, L⟩ h).2.2.live = L) ∧
    (∀ b, (mmgs_get_triangles ms g ok t ⟨n, L⟩ h).1.1 = some b →
      g = 1 ∧ (mmgs_get_triangles ms g ok t ⟨n, L⟩ h).1.2 = ms.nt ∧
      (mmgs_get_triangles ms g ok t ⟨n, L⟩ h).2.2.live = b :: L ∧
      ((∀ x ∈ L, x < n) → b ∉ L)) := by
  by_cases hv : validate_handle_s t h = false
  · have hR : mmgs_get_triangles ms g ok t ⟨n, L⟩ h = ((none, 0), t, ⟨n, L⟩) := by
      simp [mmgs_get_triangles, hv]
    refine ⟨fun _ => ?_, fun b hb => ?_⟩
    · rw [hR]; exact ⟨rfl, rfl⟩
    · rw [hR] at hb; simp at hb
  · by_cases hr : ms.result = 1
    · by_cases hnt : ms.nt = 0
      · have hR : mmgs_get_triangles ms g ok t ⟨n, L⟩ h = ((none, 0), t, ⟨n, L⟩) := by
          simp [mmgs_get_triangles, hv, hr, hnt]
        refine ⟨fun _ => ?_, fun b hb => ?_⟩
        · rw [hR]; exact ⟨rfl, rfl⟩
        · rw [hR] at hb; simp at hb
      · by_cases h0 : ok n = true
        · have d1 : n + 1 + 1 ≠ n := by omega
          by_cases h1 : ok (n + 1) = true
          · by_cases h2 : ok (n + 1 + 1) = true
            · by_cases hg : g = 1
              · have hR : mmgs_get_triangles ms g ok t ⟨n, L⟩ h =
                    ((some n, ms.nt), t, ⟨n + 1 + 1 + 1, n :: L⟩) := by
                  simp [mmgs_get_triangles, hv, hr, hnt, mallocBuf, h0, h1, h2,
                    hg, cleanup3, freeBuf, List.erase_cons, d1]
                refine ⟨fun hnone => ?_, fun b hb => ?_⟩
                · rw [hR] at hnone; simp at hnone
                · rw [hR] at hb
                  have hbn : b = n := by simpa using hb.symm
                  subst hbn
                  rw [hR]
                  exact ⟨hg, rfl, rfl, fun hL hmem => absurd (hL b hmem) (by omega)⟩
              · have hR : mmgs_get_triangles ms g ok t ⟨n, L⟩ h =
                    ((none, 0), t, ⟨n + 1 + 1 + 1, L⟩) := by
                  simp [mmgs_get_triangles, hv, hr, hnt, mallocBuf, h0, h1, h2,
                    hg, cleanup3, freeBuf, List.erase_cons, d1]
                refine ⟨fun _ => ?_, fun b hb => ?_⟩
                · rw [hR]; exact ⟨rfl, rfl⟩
                · rw [hR] at hb; simp at hb
            · have hR : mmgs_get_triangles ms g ok t ⟨n, L⟩ h =
                  ((none, 0), t, ⟨n + 1 + 1 + 1, L⟩) := by
                simp [mmgs_get_triangles, hv, hr, hnt, mallocBuf, h0, h1, h2,
                  cleanup3, freeBuf, List.erase_cons, d1]
              refine ⟨fun _ => ?_, fun b hb => ?_⟩
              · rw [hR]; exact ⟨rfl, rfl⟩
              · rw [hR] at hb; simp at hb
          · have hR : mmgs_get_triangles ms g ok t ⟨n, L⟩ h =
                ((none, 0), t, ⟨n + 1 + 1, L⟩) := by
              simp [mmgs_get_triangles, hv, hr, hnt, mallocBuf, h0, h1,
                cleanup3, freeBuf, List.erase_cons, d1]
            refine ⟨fun _ => ?_, fun b hb => ?_⟩
            · rw [hR]; exact ⟨rfl, rfl⟩
            · rw [hR] at hb; simp at hb
        · have hR : mmgs_get_triangles ms g ok t ⟨n, L⟩ h =
              ((none, 0), t, ⟨n + 1, L⟩) := by
            simp [mmgs_get_triangles, hv, hr, hnt, mallocBuf, h0,
              cleanup3, freeBuf]
          refine ⟨fun _ => ?_, fun b hb => ?_⟩
          · rw [hR]; exact ⟨rfl, rfl⟩
          · rw [hR] at hb; simp at hb
    · have hR : mmgs_get_triangles ms g ok t ⟨n, L⟩ h = ((none, 0), t, ⟨n, L⟩) := by
        simp [mmgs_get_triangles, hv, hr]
      refine ⟨fun _ => ?_, fun b hb => ?_⟩
      · rw [hR]; exact ⟨rfl, rfl⟩
      · rw [hR] at hb; simp at hb

/-- Rollback discipline of mmgs_get_edges (four-buffer form). -/
theorem mmgs_get_edges_spec (ms : KernelMeshSizeS) (g : Int) (ok : Nat → Bool)
    (t : TableS) (h : Int) (n : Nat) (L : List Nat) :
    ((mmgs_get_edges ms g ok t ⟨n, L⟩ h).1.1 = none →
      (mmgs_get_edges ms g ok t ⟨n, L⟩ h).1.2 = 0 ∧
      (mmgs_get_edges ms g ok t ⟨n, L⟩ h).2.2.live = L) ∧
    (∀ b, (mmgs_get_edges ms g ok t ⟨n, L⟩ h).1.1 = some b →
      g = 1 ∧ (mmgs_get_edges ms g ok t ⟨n, L⟩ h).1.2 = ms.na ∧
      (mmgs_get_edges ms g ok t ⟨n, L⟩ h).2.2.live = b :: L ∧
      ((∀ x ∈ L, x < n) → b ∉ L)) := by
  by_cases hv : validate_handle_s t h = false
  · have hR : mmgs_get_edges ms g ok t ⟨n, L⟩ h = ((none, 0), t, ⟨n, L⟩) := by
      simp [mmgs_get_edges, hv]
    refine ⟨fun _ => ?_, fun b hb => ?_⟩
    · rw [hR]; exact ⟨rfl, rfl⟩
    · rw [hR] at hb; simp at hb
  · by_cases hr : ms.result = 1
    · by_cases hna : ms.na = 0
      · have hR : mmgs_get_edges ms g ok t ⟨n, L⟩ h = ((none, 0), t, ⟨n, L⟩) := by
          simp [mmgs_get_edges, hv, hr, hna]
        refine ⟨fun _ => ?_, fun b hb => ?_⟩
        · rw [hR]; exact ⟨rfl, rfl⟩
        · rw [hR] at hb; simp at hb
      · by_cases h0 : ok n = true
        · have d1 : n + 1 + 1 ≠ n := by omega
          have d2 : n + 1 + 1 + 1 ≠ n := by omega
          have d3 : n + 1 + 1 + 1 ≠ n + 1 := by omega
          by_cases h1 : ok (n + 1) = true
          · by_cases h2 : ok (n + 1 + 1) = true
            · by_cases h3 : ok (n + 1 + 1 + 1) = true
              · by_cases hg : g = 1
                · have hR : mmgs_get_edges ms g ok t ⟨n, L⟩ h =
                      ((some n, ms.na), t, ⟨n + 1 + 1 + 1 + 1, n :: L⟩) := by
                    simp [mmgs_get_edges, hv, hr, hna, mallocBuf, h0, h1, h2, h3,
                      hg, cleanup4, freeBuf, List.erase_cons, d1, d2, d3]
                  refine ⟨fun hnone => ?_, fun b hb => ?_⟩
                  · rw [hR] at hnone; simp at hnone
                  · rw [hR] at hb
                    have hbn : b = n := by simpa using hb.symm
                    subst hbn
                    rw [hR]
                    exact ⟨hg, rfl, rfl, fun hL hmem => absurd (hL b hmem) (by omega)⟩
                · have hR : mmgs_get_edges ms g ok t ⟨n, L⟩ h =
                      ((none, 0), t, ⟨n + 1 + 1 + 1 + 1, L⟩) := by
                    simp [mmgs_get_edges, hv, hr, hna, mallocBuf, h0, h1, h2, h3,
                      hg, cleanup4, freeBuf, List.erase_cons, d1, d2, d3]
                  refine ⟨fun _ => ?_, fun b hb => ?_⟩
                  · rw [hR]; exact ⟨rfl, rfl⟩
                  · rw [hR] at hb; simp at hb
              · have hR : mmgs_get_edges ms g ok t ⟨n, L⟩ h =
                    ((none, 0), t, ⟨n + 1 + 1 + 1 + 1, L⟩) := by
                  simp [mmgs_get_edges, hv, hr, hna, mallocBuf, h0, h1, h2, h3,
                    cleanup4, freeBuf, List.erase_cons, d1, d2, d3]
                refine ⟨fun _ => ?_, fun b hb => ?_⟩
                · rw [hR]; exact ⟨rfl, rfl⟩
                · rw [hR] at hb; simp at hb
            · have hR : mmgs_get_edges ms g ok t ⟨n, L⟩ h =
                  ((none, 0), t, ⟨n + 1 + 1 + 1, L⟩) := by
                simp [mmgs_get_edges, hv, hr, hna, mallocBuf, h0, h1, h2,
                  cleanup4, freeBuf, List.erase_cons, d1, d2, d3]
              refine ⟨fun _ => ?_, fun b hb => ?_⟩
              · rw [hR]; exact ⟨rfl, rfl⟩
              · rw [hR] at hb; simp at hb
          · have hR : mmgs_get_edges ms g ok t ⟨n, L⟩ h =
                ((none, 0), t, ⟨n + 1 + 1, L⟩) := by
              simp [mmgs_get_edges, hv, hr, hna, mallocBuf, h0, h1,
                cleanup4, freeBuf, List.erase_cons, d1, d2, d3]
            refine ⟨fun _ => ?_, fun b hb => ?_⟩
            · rw [hR]; exact ⟨rfl, rfl⟩
            · rw [hR] at hb; simp at hb
        · have hR : mmgs_get_edges ms g ok t ⟨n, L⟩ h =
              ((none, 0), t, ⟨n + 1, L⟩) := by
            simp [mmgs_get_edges, hv, hr, hna, mallocBuf, h0,
              cleanup4, freeBuf]
          refine ⟨fun _ => ?_, fun b hb => ?_⟩
          · rw [hR]; exact ⟨rfl, rfl⟩
          · rw [hR] at hb; simp at hb
    · have hR : mmgs_get_edges ms g ok t ⟨n, L⟩ h = ((none, 0), t, ⟨n, L⟩) := by
        simp [mmgs_get_edges, hv, hr]
      refine ⟨fun _ => ?_, fun b hb => ?_⟩
      · rw [hR]; exact ⟨rfl, rfl⟩
      · rw [hR] at hb; simp at hb

/-- Rollback discipline of mmg3d_get_vertices: the data buffer is allocated
with its own check, the three side buffers unconditionally with one combined
check; on any failure everything allocated is released. -/
theorem mmg3d_get_vertices_spec (ms : KernelMeshSize3D) (g : Int) (ok : Nat → Bool)
    (t : Table3D) (h : Int) (n : Nat) (L : List Nat) :
    ((mmg3d_get_vertices ms g ok t ⟨n, L⟩ h).1.1 = none →
      (mmg3d_get_vertices ms g ok t ⟨n, L⟩ h).1.2 = 0 ∧
      (mmg3d_get_vertices ms g ok t ⟨n, L⟩ h).2.2.live = L) ∧
    (∀ b, (mmg3d_get_vertices ms g ok t ⟨n, L⟩ h).1.1 = some b →
      g = 1 ∧ (mmg3d_get_vertices ms g ok t ⟨n, L⟩ h).1.2 = ms.np ∧
      (mmg3d_get_vertices ms g ok t ⟨n, L⟩ h).2.2.live = b :: L ∧
      ((∀ x ∈ L, x < n) → b ∉ L)) := by
  by_cases hv : validate_handle t h = false
  · have hR : mmg3d_get_vertices ms g ok t ⟨n, L⟩ h = ((none, 0), t, ⟨n, L⟩) := by
      simp [mmg3d_get_vertices, hv]
    refine ⟨fun _ => ?_, fun b hb => ?_⟩
    · rw [hR]; exact ⟨rfl, rfl⟩
    · rw [hR] at hb; simp at hb
  · by_cases hr : ms.result = 1
    · by_cases hnp : ms.np = 0
      · have hR : mmg3d_get_vertices ms g ok t ⟨n, L⟩ h = ((none, 0), t, ⟨n, L⟩) := by
          simp [mmg3d_get_vertices, hv, hr, hnp]
        refine ⟨fun _ => ?_, fun b hb => ?_⟩
        · rw [hR]; exact ⟨rfl, rfl⟩
        · rw [hR] at hb; simp at hb
      · by_cases h0 : ok n = true
        · have d1 : n + 1 + 1 ≠ n := by omega
          have d2 : n + 1 + 1 + 1 ≠ n := by omega
          have d3 : n + 1 + 1 + 1 ≠ n + 1 := by omega
          by_cases h1 : ok (n + 1) = true
          · by_cases h2 : ok (n + 1 + 1) = true
            · by_cases h3 : ok (n + 1 + 1 + 1) = true
              · by_cases hg : g = 1
                · have hR : mmg3d_get_vertices ms g ok t ⟨n, L⟩ h =
                      ((some n, ms.np), t, ⟨n + 1 + 1 + 1 + 1, n :: L⟩) := by
                    simp [mmg3d_get_vertices, hv, hr, hnp, mallocBuf, h0, h1, h2, h3,
                      hg, freeBuf, List.erase_cons, d1, d2, d3]
                  refine ⟨fun hnone => ?_, fun b hb => ?_⟩
                  · rw [hR] at hnone; simp at hnone
                  · rw [hR] at hb
                    have hbn : b = n := by simpa using hb.symm
                    subst hbn
                    rw [hR]
                    exact ⟨hg, rfl, rfl, fun hL hmem => absurd (hL b hmem) (by omega)⟩
                · have hR : mmg3d_get_vertices ms g ok t ⟨n, L⟩ h =
                      ((none, 0), t, ⟨n + 1 + 1 + 1 + 1, L⟩) := by
                    simp [mmg3d_get_vertices, hv, hr, hnp, mallocBuf, h0, h1, h2, h3,
                      hg, freeBuf, List.erase_cons, d1, d2, d3]
                  refine ⟨fun _ => ?_, fun b hb => ?_⟩
                  · rw [hR]; exact ⟨rfl, rfl⟩
                  · rw [hR] at hb; simp at hb
              · have hR : mmg3d_get_vertices ms g ok t ⟨n, L⟩ h =
                    ((none, 0), t, ⟨n + 1 + 1 + 1 + 1, L⟩) := by
                  simp [mmg3d_get_vertices, hv, hr, hnp, mallocBuf, h0, h1, h2, h3,
                    freeBuf, List.erase_cons, d1, d2, d3]
                refine ⟨fun _ => ?_, fun b hb => ?_⟩
                · rw [hR]; exact ⟨rfl, rfl⟩
                · rw [hR] at hb; simp at hb
            · by_cases h3 : ok (n + 1 + 1 + 1) = true
              · have hR : mmg3d_get_vertices ms g ok t ⟨n, L⟩ h =
                    ((none, 0), t, ⟨n + 1 + 1 + 1 + 1, L⟩) := by
                  simp [mmg3d_get_vertices, hv, hr, hnp, mallocBuf, h0, h1, h2, h3,
                    freeBuf, List.erase_cons, d1, d2, d3]
                refine ⟨fun _ => ?_, fun b hb => ?_⟩
                · rw [hR]; exact ⟨rfl, rfl⟩
                · rw [hR] at hb; simp at hb
              · have hR : mmg3d_get_vertices ms g ok t ⟨n, L⟩ h =
                    ((none, 0), t, ⟨n + 1 + 1 + 1 + 1, L⟩) := by
                  simp [mmg3d_get_vertices, hv, hr, hnp, mallocBuf, h0, h1, h2, h3,
                    freeBuf, List.erase_cons, d1, d2, d3]
                refine ⟨fun _ => ?_, fun b hb => ?_⟩
                · rw [hR]; exact ⟨rfl, rfl⟩
                · rw [hR] at hb; simp at hb
          · by_cases h2 : ok (n + 1 + 1) = true
            · by_cases h3 : ok (n + 1 + 1 + 1) = true
              · have hR : mmg3d_get_vertices ms g ok t ⟨n, L⟩ h =
                    ((none, 0), t, ⟨n + 1 + 1 + 1 + 1, L⟩) := by
                  simp [mmg3d_get_vertices, hv, hr, hnp, mallocBuf, h0, h1, h2, h3,
                    freeBuf, List.erase_cons, d1, d2, d3]
                refine ⟨fun _ => ?_, fun b hb => ?_⟩
                · rw [hR]; exact ⟨rfl, rfl⟩
                · rw [hR] at hb; simp at hb
              · have hR : mmg3d_get_vertices ms g ok t ⟨n, L⟩ h =
                    ((none, 0), t, ⟨n + 1 + 1 + 1 + 1, L⟩) := by
                  simp [mmg3d_get_vertices, hv, hr, hnp, mallocBuf, h0, h1, h2, h3,
                    freeBuf, List.erase_cons, d1, d2, d3]
                refine ⟨fun _ => ?_, fun b hb => ?_⟩
                · rw [hR]; exact ⟨rfl, rfl⟩
                · rw [hR] at hb; simp at hb
            · by_cases h3 : ok (n + 1 + 1 + 1) = true
              · have hR : mmg3d_get_vertices ms g ok t ⟨n, L⟩ h =
                    ((none, 0), t, ⟨n + 1 + 1 + 1 + 1, L⟩) := by
                  simp [mmg3d_get_vertices, hv, hr, hnp, mallocBuf, h0, h1, h2, h3,
                    freeBuf, List.erase_cons, d1, d2, d3]
                refine ⟨fun _ => ?_, fun b hb => ?_⟩
                · rw [hR]; exact ⟨rfl, rfl⟩
                · rw [hR] at hb; simp at hb
              · have hR : mmg3d_get_vertices ms g ok t ⟨n, L⟩ h =
                    ((none, 0), t, ⟨n + 1 + 1 + 1 + 1, L⟩) := by
                  simp [mmg3d_get_vertices, hv, hr, hnp, mallocBuf, h0, h1, h2, h3,
                    freeBuf, List.erase_cons, d1, d2, d3]
                refine ⟨fun _ => ?_, fun b hb => ?_⟩
                · rw [hR]; exact ⟨rfl, rfl⟩
                · rw [hR] at hb; simp at hb
        · have hR : mmg3d_get_vertices ms g ok t ⟨n, L⟩ h =
              ((none, 0), t, ⟨n + 1, L⟩) := by
            simp [mmg3d_get_vertices, hv, hr, hnp, mallocBuf, h0]
          refine ⟨fun _ => ?_, fun b hb => ?_⟩
          · rw [hR]; exact ⟨rfl, rfl⟩
          · rw [hR] at hb; simp at hb
    · have hR : mmg3d_get_vertices ms g ok t ⟨n, L⟩ h = ((none, 0), t, ⟨n, L⟩) := by
        simp [mmg3d_get_vertices, hv, hr]
      refine ⟨fun _ => ?_, fun b hb => ?_⟩
      · rw [hR]; exact ⟨rfl, rfl⟩
      · rw [hR] at hb; simp at hb

/-- Rollback discipline of mmg3d_get_tetrahedra (data buffer plus two side
buffers with one combined check). -/
theorem mmg3d_get_tetrahedra_spec (ms : KernelMeshSize3D) (g : Int) (ok : Nat → Bool)
    (t : Table3D) (h : Int) (n : Nat) (L : List Nat) :
    ((mmg3d_get_tetrahedra ms g ok t ⟨n, L⟩ h).1.1 = none →
      (mmg3d_get_tetrahedra ms g ok t ⟨n, L⟩ h).1.2 = 0 ∧
      (mmg3d_get_tetrahedra ms g ok t ⟨n, L⟩ h).2.2.live = L) ∧
    (∀ b, (mmg3d_get_tetrahedra ms g ok t ⟨n, L⟩ h).1.1 = some b →
      g = 1 ∧ (mmg3d_get_tetrahedra ms g ok t ⟨n, L⟩ h).1.2 = ms.ne ∧
      (mmg3d_get_tetrahedra ms g ok t ⟨n, L⟩ h).2.2.live = b :: L ∧
      ((∀ x ∈ L, x < n) → b ∉ L)) := by
  by_cases hv : validate_handle t h = false
  · have hR : mmg3d_get_tetrahedra ms g ok t ⟨n, L⟩ h = ((none, 0), t, ⟨n, L⟩) := by
      simp [mmg3d_get_tetrahedra, hv]
    refine ⟨fun _ => ?_, fun b hb => ?_⟩
    · rw [hR]; exact ⟨rfl, rfl⟩
    · rw [hR] at hb; simp at hb
  · by_cases hr : ms.result = 1
    · by_cases hne : ms.ne = 0
      · have hR : mmg3d_get_tetrahedra ms g ok t ⟨n, L⟩ h = ((none, 0), t, ⟨n, L⟩) := by
          simp [mmg3d_get_tetrahedra, hv, hr, hne]
        refine ⟨fun _ => ?_, fun b hb => ?_⟩
        · rw [hR]; exact ⟨rfl, rfl⟩
        · rw [hR] at hb; simp at hb
      · by_cases h0 : ok n = true
        · have d1 : n + 1 + 1 ≠ n := by omega
          by_cases h1 : ok (n + 1) = true
          · by_cases h2 : ok (n + 1 + 1) = true
            · by_cases hg : g = 1
              · have hR : mmg3d_get_tetrahedra ms g ok t ⟨n, L⟩ h =
                    ((some n, ms.ne), t, ⟨n + 1 + 1 + 1, n :: L⟩) := by
                  simp [mmg3d_get_tetrahedra, hv, hr, hne, mallocBuf, h0, h1, h2,
                    hg, freeBuf, List.erase_cons, d1]
                refine ⟨fun hnone => ?_, fun b hb => ?_⟩
                · rw [hR] at hnone; simp at hnone
                · rw [hR] at hb
                  have hbn : b = n := by simpa using hb.symm
                  subst hbn
                  rw [hR]
                  exact ⟨hg, rfl, rfl, fun hL hmem => absurd (hL b hmem) (by omega)⟩
              · have hR : mmg3d_get_tetrahedra ms g ok t ⟨n, L⟩ h =
                    ((none, 0), t, ⟨n + 1 + 1 + 1, L⟩) := by
                  simp [mmg3d_get_tetrahedra, hv, hr, hne, mallocBuf, h0, h1, h2,
                    hg, freeBuf, List.erase_cons, d1]
                refine ⟨fun _ => ?_, fun b hb => ?_⟩
                · rw [hR]; exact ⟨rfl, rfl⟩
                · rw [hR] at hb; simp at hb
            · have hR : mmg3d_get_tetrahedra ms g ok t ⟨n, L⟩ h =
                  ((none, 0), t, ⟨n + 1 + 1 + 1, L⟩) := by
                simp [mmg3d_get_tetrahedra, hv, hr, hne, mallocBuf, h0, h1, h2,
                  freeBuf, List.erase_cons, d1]
              refine ⟨fun _ => ?_, fun b hb => ?_⟩
              · rw [hR]; exact ⟨rfl, rfl⟩
              · rw [hR] at hb; simp at hb
          · by_cases h2 : ok (n + 1 + 1) = true
            · have hR : mmg3d_get_tetrahedra ms g ok t ⟨n, L⟩ h =
                  ((none, 0), t, ⟨n + 1 + 1 + 1, L⟩) := by
                simp [mmg3d_get_tetrahedra, hv, hr, hne, mallocBuf, h0, h1, h2,
                  freeBuf, List.erase_cons, d1]
              refine ⟨fun _ => ?_, fun b hb => ?_⟩
              · rw [hR]; exact ⟨rfl, rfl⟩
              · rw [hR] at hb; simp at hb
            · have hR : mmg3d_get_tetrahedra ms g ok t ⟨n, L⟩ h =
                  ((none, 0), t, ⟨n + 1 + 1 + 1, L⟩) := by
                simp [mmg3d_get_tetrahedra, hv, hr, hne, mallocBuf, h0, h1, h2,
                  freeBuf, List.erase_cons, d1]
              refine ⟨fun _ => ?_, fun b hb => ?_⟩
              · rw [hR]; exact ⟨rfl, rfl⟩
              · rw [hR] at hb; simp at hb
        · have hR : mmg3d_get_tetrahedra ms g ok t ⟨n, L⟩ h =
              ((none, 0), t, ⟨n + 1, L⟩) := by
            simp [mmg3d_get_tetrahedra, hv, hr, hne, mallocBuf, h0]
          refine ⟨fun _ => ?_, fun b hb => ?_⟩
          · rw [hR]; exact ⟨rfl, rfl⟩
          · rw [hR] at hb; simp at hb
    · have hR : mmg3d_get_tetrahedra ms g ok t ⟨n, L⟩ h = ((none, 0), t, ⟨n, L⟩) := by
        simp [mmg3d_get_tetrahedra, hv, hr]
      refine ⟨fun _ => ?_, fun b hb => ?_⟩
      · rw [hR]; exact ⟨rfl, rfl⟩
      · rw [hR] at hb; simp at hb

/-- Rollback discipline of mmg3d_get_triangles (same shape as the tetrahedra getter). -/
theorem mmg3d_get_triangles_spec (ms : KernelMeshSize3D) (g : Int) (ok : Nat → Bool)
    (t : Table3D) (h : Int) (n : Nat) (L : List Nat) :
    ((mmg3d_get_triangles ms g ok t ⟨n, L⟩ h).1.1 = none →
      (mmg3d_get_triangles ms g ok t ⟨n, L⟩ h).1.2 = 0 ∧
      (mmg3d_get_triangles ms g ok t ⟨n, L⟩ h).2.2.live = L) ∧
    (∀ b, (mmg3d_get_triangles ms g ok t ⟨n, L⟩ h).1.1 = some b →
      g = 1 ∧ (mmg3d_get_triangles ms g ok t ⟨n, L⟩ h).1.2 = ms.nt ∧
      (mmg3d_get_triangles ms g ok t ⟨n, L⟩ h).2.2.live = b :: L ∧
      ((∀ x ∈ L, x < n) → b ∉ L)) := by
  by_cases hv : validate_handle t h = false
  · have hR : mmg3d_get_triangles ms g ok t ⟨n, L⟩ h = ((none, 0), t, ⟨n, L⟩) := by
      simp [mmg3d_get_triangles, hv]
    refine ⟨fun _ => ?_, fun b hb => ?_⟩
    · rw [hR]; exact ⟨rfl, rfl⟩
    · rw [hR] at hb; simp at hb
  · by_cases hr : ms.result = 1
    · by_cases hnt : ms.nt = 0
      · have hR : mmg3d_get_triangles ms g ok t ⟨n, L⟩ h = ((none, 0), t, ⟨n, L⟩) := by
          simp [mmg3d_get_triangles, hv, hr, hnt]
        refine ⟨fun _ => ?_, fun b hb => ?_⟩
        · rw [hR]; exact ⟨rfl, rfl⟩
        · rw [hR] at hb; simp at hb
      · by_cases h0 : ok n = true
        · have d1 : n + 1 + 1 ≠ n := by omega
          by_cases h1 : ok (n + 1) = true
          · by_cases h2 : ok (n + 1 + 1) = true
            · by_cases hg : g = 1
              · have hR : mmg3d_get_triangles ms g ok t ⟨n, L⟩ h =
                    ((some n, ms.nt), t, ⟨n + 1 + 1 + 1, n :: L⟩) := by
                  simp [mmg3d_get_triangles, hv, hr, hnt, mallocBuf, h0, h1, h2,
                    hg, freeBuf, List.erase_cons, d1]
                refine ⟨fun hnone => ?_, fun b hb => ?_⟩
                · rw [hR] at hnone; simp at hnone
                · rw [hR] at hb
                  have hbn : b = n := by simpa using hb.symm
                  subst hbn
                  rw [hR]
                  exact ⟨hg, rfl, rfl, fun hL hmem => absurd (hL b hmem) (by omega)⟩
              · have hR : mmg3d_get_triangles ms g ok t ⟨n, L⟩ h =
                    ((none, 0), t, ⟨n + 1 + 1 + 1, L⟩) := by
                  simp [mmg3d_get_triangles, hv, hr, hnt, mallocBuf, h0, h1, h2,
                    hg, freeBuf, List.erase_cons, d1]
                refine ⟨fun _ => ?_, fun b hb => ?_⟩
                · rw [hR]; exact ⟨rfl, rfl⟩
                · rw [hR] at hb; simp at hb
            · have hR : mmg3d_get_triangles ms g ok t ⟨n, L⟩ h =
                  ((none, 0), t, ⟨n + 1 + 1 + 1, L⟩) := by
                simp [mmg3d_get_triangles, hv, hr, hnt, mallocBuf, h0, h1, h2,
                  freeBuf, List.erase_cons, d1]
              refine ⟨fun _ => ?_, fun b hb => ?_⟩
              · rw [hR]; exact ⟨rfl, rfl⟩
              · rw [hR] at hb; simp at hb
          · by_cases h2 : ok (n + 1 + 1) = true
            · have hR : mmg3d_get_triangles ms g ok t ⟨n, L⟩ h =
                  ((none, 0), t, ⟨n + 1 + 1 + 1, L⟩) := by
                simp [mmg3d_get_triangles, hv, hr, hnt, mallocBuf, h0, h1, h2,
                  freeBuf, List.erase_cons, d1]
              refine ⟨fun _ => ?_, fun b hb => ?_⟩
              · rw [hR]; exact ⟨rfl, rfl⟩
              · rw [hR] at hb; simp at hb
            · have hR : mmg3d_get_triangles ms g ok t ⟨n, L⟩ h =
                  ((none, 0), t, ⟨n + 1 + 1 + 1, L⟩) := by
                simp [mmg3d_get_triangles, hv, hr, hnt, mallocBuf, h0, h1, h2,
                  freeBuf, List.erase_cons, d1]
              refine ⟨fun _ => ?_, fun b hb => ?_⟩
              · rw [hR]; exact ⟨rfl, rfl⟩
              · rw [hR] at hb; simp at hb
        · have hR : mmg3d_get_triangles ms g ok t ⟨n, L⟩ h =
              ((none, 0), t, ⟨n + 1, L⟩) := by
            simp [mmg3d_get_triangles, hv, hr, hnt, mallocBuf, h0]
          refine ⟨fun _ => ?_, fun b hb => ?_⟩
          · rw [hR]; exact ⟨rfl, rfl⟩
          · rw [hR] at hb; simp at hb
    · have hR : mmg3d_get_triangles ms g ok t ⟨n, L⟩ h = ((none, 0), t, ⟨n, L⟩) := by
        simp [mmg3d_get_triangles, hv, hr]
      refine ⟨fun _ => ?_, fun b hb => ?_⟩
      · rw [hR]; exact ⟨rfl, rfl⟩
      · rw [hR] at hb; simp at hb

/-! ## Claims -/

/-- Claim C1: for every sequence of init and free calls, in each dimensional
variant, the number of active handle-table slots never exceeds the capacity
64, and available_count plus the number of active slots equals max_handles
after every operation. -/
theorem claim_C1_handle_count_invariant :
    (∀ ops : List Op2D,
      active_count_2d (run2d ops g_handles_2d_start) ≤ mmg2d_get_max_handles ∧
      mmg2d_get_available_handles (run2d ops g_handles_2d_start) +
        active_count_2d (run2d ops g_handles_2d_start) = mmg2d_get_max_handles) ∧
    (∀ ops : List Op3D,
      active_count_3d (run3d ops g_handles_start) ≤ mmg3d_get_max_handles ∧
      mmg3d_get_available_handles (run3d ops g_handles_start) +
        active_count_3d (run3d ops g_handles_start) = mmg3d_get_max_handles) ∧
    (∀ ops : List OpS,
      active_count_s (runS ops g_handles_s_start) ≤ mmgs_get_max_handles ∧
      mmgs_get_available_handles (runS ops g_handles_s_start) +
        active_count_s (runS ops g_handles_s_start) = mmgs_get_max_handles) := by
  refine ⟨fun ops => ?_, fun ops => ?_, fun ops => ?_⟩
  · have h := counts_loop_2d (run2d ops g_handles_2d_start) MAX_HANDLES 0
    simp only [active_count_2d, mmg2d_get_available_handles, mmg2d_get_max_handles]
    omega
  · have h := counts_loop_3d (run3d ops g_handles_start) MAX_HANDLES 0
    simp only [active_count_3d, mmg3d_get_available_handles, mmg3d_get_max_handles]
    omega
  · have h := counts_loop_s (runS ops g_handles_s_start) MAX_HANDLES 0
    simp only [active_count_s, mmgs_get_available_handles, mmgs_get_max_handles]
    omega

set_option maxRecDepth 4000 in
/-- Claim C4: init returns -1 both when no slot is inactive and when the
kernel construction fails, consuming no slot in either case (active and
available counts unchanged); init applied 64 times from the fresh table
leaves available_count at 0, and a 65th init returns -1. -/
theorem claim_C4_init_failure :
    (∀ (k : KernelInit) (t : Table2D),
      mmg2d_get_available_handles t = 0 → mmg2d_init k t = (-1, t)) ∧
    (∀ (k : KernelInit) (t : Table2D),
      k.result ≠ 1 ∨ k.mesh = none → mmg2d_init k t = (-1, t)) ∧
    (∀ (k : KernelInit) (t : Table2D),
      mmg2d_get_available_handles t = 0 ∨ k.result ≠ 1 ∨ k.mesh = none →
      active_count_2d (mmg2d_init k t).2 = active_count_2d t ∧
      mmg2d_get_available_handles (mmg2d_init k t).2 = mmg2d_get_available_handles t) ∧
    mmg2d_get_available_handles (iter_init_2d MAX_HANDLES) = 0 ∧
    (∀ k : KernelInit, (mmg2d_init k (iter_init_2d MAX_HANDLES)).1 = -1) := by
  have hfull : mmg2d_get_available_handles (iter_init_2d MAX_HANDLES) = 0 := by decide
  refine ⟨fun k t h => mmg2d_init_of_available_zero k t h,
          fun k t h => mmg2d_init_of_constr_fail k t h,
          fun k t h => ?_, hfull, fun k => ?_⟩
  · have heq : mmg2d_init k t = (-1, t) := by
      rcases h with h | h
      · exact mmg2d_init_of_available_zero k t h
      · exact mmg2d_init_of_constr_fail k t h
    rw [heq]
    exact ⟨rfl, rfl⟩
  · rw [mmg2d_init_of_available_zero k (iter_init_2d MAX_HANDLES) hfull]

/-- Witness for claim C4: applying the exhaustion case to a concretely full
table. -/
theorem claim_C4_init_failure_witness :
    mmg2d_init kernel_ok table2d_full = (-1, table2d_full) :=
  claim_C4_init_failure.1 kernel_ok table2d_full (by decide)

/-- Claim C6: when some slot is inactive and construction succeeds, init
returns the lowest-index inactive slot, a handle in [0, 64), binds the
fresh instance into exactly that slot marking it active, and the handle is
determined by the table's activity pattern alone. -/
theorem claim_C6_init_lowest_slot :
    ∀ (k : KernelInit) (t : Table2D) (i : Nat),
      i < MAX_HANDLES → (t i).active = false → k.result = 1 → k.mesh ≠ none →
      (0 ≤ (mmg2d_init k t).1 ∧ (mmg2d_init k t).1 < (MAX_HANDLES : Int)) ∧
      (t (mmg2d_init k t).1.toNat).active = false ∧
      (∀ j, j < (mmg2d_init k t).1.toNat → (t j).active = true) ∧
      (mmg2d_init k t).2 =
        Function.update t (mmg2d_init k t).1.toNat ⟨k.mesh, k.sol, true⟩ ∧
      validate_handle_2d (mmg2d_init k t).2 (mmg2d_init k t).1 = true ∧
      (∀ (t' : Table2D) (k' : KernelInit),
        (∀ j, j < MAX_HANDLES → (t' j).active = (t j).active) →
        k'.result = 1 → k'.mesh ≠ none →
        (mmg2d_init k' t').1 = (mmg2d_init k t).1) := by
  intro k t i hi ha hk hm
  rcases find_loop_2d_spec t MAX_HANDLES 0 with ⟨_, hall⟩ | ⟨r, heq, _, hr2, hr3, hr4⟩
  · rw [hall i (by omega) (by omega)] at ha
    exact absurd ha (by simp)
  · have hinit := mmg2d_init_success k t r hk hm heq
    have h1 : (mmg2d_init k t).1 = Int.ofNat r := by rw [hinit]
    have h2 : (mmg2d_init k t).2 = Function.update t r ⟨k.mesh, k.sol, true⟩ := by
      rw [hinit]
    have htn : (mmg2d_init k t).1.toNat = r := by rw [h1]; rfl
    refine ⟨⟨by rw [h1, Int.ofNat_eq_coe]; omega, by rw [h1, Int.ofNat_eq_coe]; omega⟩,
      by rw [htn]; exact hr3, ?_, by rw [htn]; exact h2, ?_, ?_⟩
    · intro j hj
      rw [htn] at hj
      exact hr4 j (by omega) hj
    · rw [h1, h2, validate_handle_2d_true_iff]
      simp only [Int.ofNat_eq_coe, Int.toNat_natCast]
      refine ⟨by omega, by omega, ?_⟩
      rw [Function.update_same]
    · intro t' k' hact hk' hm'
      have hfind' : find_free_handle_2d t' = find_free_handle_2d t :=
        find_loop_2d_congr t' t MAX_HANDLES 0
          (fun j h1j h2j => hact j (by omega))
      have heq' : find_free_handle_2d t' = Int.ofNat r := by rw [hfind']; exact heq
      rw [mmg2d_init_success k' t' r hk' hm' heq', h1]

/-- Witness for claim C6: init on the fresh table returns handle 0, binds
the instance into slot 0 and yields a valid handle. -/
theorem claim_C6_init_lowest_slot_witness :
    (mmg2d_init kernel_ok g_handles_2d_start).2 =
      Function.update g_handles_2d_start
        (mmg2d_init kernel_ok g_handles_2d_start).1.toNat
        ⟨kernel_ok.mesh, kernel_ok.sol, true⟩ ∧
    validate_handle_2d (mmg2d_init kernel_ok g_handles_2d_start).2
      (mmg2d_init kernel_ok g_handles_2d_start).1 = true :=
  have h := claim_C6_init_lowest_slot kernel_ok g_handles_2d_start 0
    (by decide) (by decide) (by decide) (by decide)
  ⟨h.2.2.2.1, h.2.2.2.2.1⟩

/-- Claim C5: a handle returned by a successful init is valid; validity is
preserved by further inits and by frees of other handles; free on a valid
handle returns 1 and invalidates it; free on an invalid handle returns 0
and changes nothing; invalidity is preserved by inits that return a
different handle; and an init that returns the same value makes it valid
again. -/
theorem claim_C5_handle_lifetime :
    (∀ (k : KernelInit) (t : Table2D) (i : Nat),
      i < MAX_HANDLES → (t i).active = false → k.result = 1 → k.mesh ≠ none →
      validate_handle_2d (mmg2d_init k t).2 (mmg2d_init k t).1 = true) ∧
    (∀ (k : KernelInit) (t : Table2D) (h : Int),
      validate_handle_2d t h = true →
      validate_handle_2d (mmg2d_init k t).2 h = true) ∧
    (∀ (t : Table2D) (h h' : Int),
      validate_handle_2d t h = true → validate_handle_2d t h' = true → h' ≠ h →
      validate_handle_2d (mmg2d_free t h').2 h = true) ∧
    (∀ (t : Table2D) (h : Int),
      validate_handle_2d t h = true →
      (mmg2d_free t h).1 = 1 ∧ validate_handle_2d (mmg2d_free t h).2 h = false) ∧
    (∀ (t : Table2D) (h : Int),
      validate_handle_2d t h = false → mmg2d_free t h = (0, t)) ∧
    (∀ (k : KernelInit) (t : Table2D) (h : Int),
      validate_handle_2d t h = false → (mmg2d_init k t).1 ≠ h →
      validate_handle_2d (mmg2d_init k t).2 h = false) ∧
    (∀ (k : KernelInit) (t : Table2D) (h : Int),
      validate_handle_2d t h = false → (mmg2d_init k t).1 = h → 0 ≤ h →
      validate_handle_2d (mmg2d_init k t).2 h = true) := by
  refine ⟨?_, ?_, ?_, ?_, ?_, ?_, ?_⟩
  · intro k t i hi ha hk hm
    exact mmg2d_init_success_validates k t i hi ha hk hm
  · intro k t h hv
    rcases mmg2d_init_cases k t with hc | ⟨r, _, _, _, _, hr5, hc⟩
    · rw [hc]; exact hv
    · rw [hc]
      dsimp only
      rw [validate_handle_2d_true_iff] at hv ⊢
      refine ⟨hv.1, hv.2.1, ?_⟩
      have hne : h.toNat ≠ r := by
        intro hcontra
        rw [← hcontra] at hr5
        rw [hv.2.2] at hr5
        exact absurd hr5 (by simp)
      rw [Function.update_noteq hne]
      exact hv.2.2
  · intro t h h' hv hv' hne
    unfold mmg2d_free
    rw [if_neg (by rw [hv']; simp)]
    rw [validate_handle_2d_true_iff] at hv hv' ⊢
    dsimp only
    refine ⟨hv.1, hv.2.1, ?_⟩
    have hnat : h.toNat ≠ h'.toNat := by omega
    rw [Function.update_noteq hnat]
    exact hv.2.2
  · intro t h hv
    unfold mmg2d_free
    rw [if_neg (by rw [hv]; simp)]
    refine ⟨rfl, ?_⟩
    rw [validate_handle_2d_false_iff]
    dsimp only
    refine Or.inr (Or.inr ?_)
    rw [Function.update_same]
  · intro t h hv
    unfold mmg2d_free
    rw [if_pos hv]
  · intro k t h hv hne
    rcases mmg2d_init_cases k t with hc | ⟨r, _, _, _, _, _, hc⟩
    · rw [hc]; exact hv
    · have h1 : (mmg2d_init k t).1 = Int.ofNat r := by rw [hc]
      rw [hc]
      dsimp only
      rw [validate_handle_2d_false_iff] at hv ⊢
      rcases hv with hv | hv | hv
      · exact Or.inl hv
      · exact Or.inr (Or.inl hv)
      · by_cases hr : h < 0
        · exact Or.inl hr
        · by_cases hr2 : (MAX_HANDLES : Int) ≤ h
          · exact Or.inr (Or.inl hr2)
          · refine Or.inr (Or.inr ?_)
            have hnat : h.toNat ≠ r := by
              intro hcontra
              apply hne
              rw [h1, ← hcontra, Int.ofNat_eq_coe]
              omega
            rw [Function.update_noteq hnat]
            exact hv
  · intro k t h hv heq hpos
    rcases mmg2d_init_cases k t with hc | ⟨r, hfind, hkr, hkm, hrlt, hract, hc⟩
    · rw [hc] at heq
      simp at heq
      omega
    · have h1 : (mmg2d_init k t).1 = Int.ofNat r := by rw [hc]
      rw [h1] at heq
      rw [hc]
      dsimp only
      rw [validate_handle_2d_true_iff]
      have heq2 : (r : Int) = h := by rw [← Int.ofNat_eq_coe]; exact heq
      refine ⟨hpos, by omega, ?_⟩
      have hnat : h.toNat = r := by omega
      rw [hnat, Function.update_same]

/-- Witness for claim C5: freeing the valid handle 0 of a one-entry table
succeeds and invalidates it. -/
theorem claim_C5_handle_lifetime_witness :
    (mmg2d_free table2d_one 0).1 = 1 ∧
    validate_handle_2d (mmg2d_free table2d_one 0).2 0 = false :=
  claim_C5_handle_lifetime.2.2.2.1 table2d_one 0 (by decide)

/-- Claim C10: the planar, volumetric and surface subsystems each own a
disjoint table of capacity 64: the lifecycle operations of one variant
leave the other two variants' tables unchanged, and every other entry
point leaves every table unchanged (it returns its own variant's table
untouched and never sees the other two). -/
theorem claim_C10_table_disjointness :
    mmg2d_get_max_handles = 64 ∧ mmg3d_get_max_handles = 64 ∧ mmgs_get_max_handles = 64 ∧
    (∀ (k : KernelInit) (s : GlobalState),
      (glob_mmg2d_init k s).2.t3d = s.t3d ∧ (glob_mmg2d_init k s).2.ts = s.ts) ∧
    (∀ (s : GlobalState) (h : Int),
      (glob_mmg2d_free s h).2.t3d = s.t3d ∧ (glob_mmg2d_free s h).2.ts = s.ts) ∧
    (∀ (k : KernelInit) (s : GlobalState),
      (glob_mmg3d_init k s).2.t2d = s.t2d ∧ (glob_mmg3d_init k s).2.ts = s.ts) ∧
    (∀ (s : GlobalState) (h : Int),
      (glob_mmg3d_free s h).2.t2d = s.t2d ∧ (glob_mmg3d_free s h).2.ts = s.ts) ∧
    (∀ (k : KernelInit) (s : GlobalState),
      (glob_mmgs_init k s).2.t2d = s.t2d ∧ (glob_mmgs_init k s).2.t3d = s.t3d) ∧
    (∀ (s : GlobalState) (h : Int),
      (glob_mmgs_free s h).2.t2d = s.t2d ∧ (glob_mmgs_free s h).2.t3d = s.t3d) ∧
    (∀ kr t h np nt nq na, (mmg2d_set_mesh_size kr t h np nt nq na).2 = t) ∧
    (∀ ms t h, (mmg2d_get_mesh_size ms t h).2 = t) ∧
    (∀ kr t h x y r p, (mmg2d_set_vertex kr t h x y r p).2 = t) ∧
    (∀ kr t h vs rs, (mmg2d_set_vertices kr t h vs rs).2 = t) ∧
    (∀ ms g ok t st h, (mmg2d_get_vertices ms g ok t st h).2.1 = t) ∧
    (∀ kr t h a b c r p, (mmg2d_set_triangle kr t h a b c r p).2 = t) ∧
    (∀ kr t h vs rs, (mmg2d_set_triangles kr t h vs rs).2 = t) ∧
    (∀ ms g ok t st h, (mmg2d_get_triangles ms g ok t st h).2.1 = t) ∧
    (∀ kr t h a b r p, (mmg2d_set_edge kr t h a b r p).2 = t) ∧
    (∀ kr t h vs rs, (mmg2d_set_edges kr t h vs rs).2 = t) ∧
    (∀ ms g ok t st h, (mmg2d_get_edges ms g ok t st h).2.1 = t) ∧
    (∀ kr t h ip v, (mmg2d_set_iparameter kr t h ip v).2 = t) ∧
    (∀ kr t h dp v, (mmg2d_set_dparameter kr t h dp v).2 = t) ∧
    (∀ kr t h te np ts, (mmg2d_set_sol_size kr t h te np ts).2 = t) ∧
    (∀ ss t h, (mmg2d_get_sol_size ss t h).2 = t) ∧
    (∀ kr t h vs, (mmg2d_set_scalar_sols kr t h vs).2 = t) ∧
    (∀ ss g ok t st h, (mmg2d_get_scalar_sols ss g ok t st h).2.1 = t) ∧
    (∀ kr t h vs, (mmg2d_set_tensor_sols kr t h vs).2 = t) ∧
    (∀ ss g ok t st h, (mmg2d_get_tensor_sols ss g ok t st h).2.1 = t) ∧
    (∀ kr t h, (mmg2d_remesh kr t h).2 = t) ∧
    (∀ kr t h fn, (mmg2d_load_mesh kr t h fn).2 = t) ∧
    (∀ kr t h fn, (mmg2d_save_mesh kr t h fn).2 = t) ∧
    (∀ kr t h fn, (mmg2d_load_sol kr t h fn).2 = t) ∧
    (∀ kr t h fn, (mmg2d_save_sol kr t h fn).2 = t) ∧
    (∀ q t h k, (mmg2d_get_triangle_quality q t h k).2 = t) ∧
    (∀ ms q ok t st h, (mmg2d_get_triangles_qualities ms q ok t st h).2.1 = t) ∧
    (∀ kr t h np ne npr nt nq na, (mmg3d_set_mesh_size kr t h np ne npr nt nq na).2 = t) ∧
    (∀ ms t h, (mmg3d_get_mesh_size ms t h).2 = t) ∧
    (∀ kr t h x y z r p, (mmg3d_set_vertex kr t h x y z r p).2 = t) ∧
    (∀ kr t h vs rs, (mmg3d_set_vertices kr t h vs rs).2 = t) ∧
    (∀ ms g ok t st h, (mmg3d_get_vertices ms g ok t st h).2.1 = t) ∧
    (∀ kr t h a b c d r p, (mmg3d_set_tetrahedron kr t h a b c d r p).2 = t) ∧
    (∀ kr t h vs rs, (mmg3d_set_tetrahedra kr t h vs rs).2 = t) ∧
    (∀ ms g ok t st h, (mmg3d_get_tetrahedra ms g ok t st h).2.1 = t) ∧
    (∀ kr t h a b c r p, (mmg3d_set_triangle kr t h a b c r p).2 = t) ∧
    (∀ kr t h vs rs, (mmg3d_set_triangles kr t h vs rs).2 = t) ∧
    (∀ ms g ok t st h, (mmg3d_get_triangles ms g ok t st h).2.1 = t) ∧
    (∀ kr t h ip v, (mmg3d_set_iparameter kr t h ip v).2 = t) ∧
    (∀ kr t h dp v, (mmg3d_set_dparameter kr t h dp v).2 = t) ∧
    (∀ kr t h te np ts, (mmg3d_set_sol_size kr t h te np ts).2 = t) ∧
    (∀ ss t h, (mmg3d_get_sol_size ss t h).2 = t) ∧
    (∀ kr t h vs, (mmg3d_set_scalar_sols kr t h vs).2 = t) ∧
    (∀ ss g ok t st h, (mmg3d_get_scalar_sols ss g ok t st h).2.1 = t) ∧
    (∀ kr t h vs, (mmg3d_set_tensor_sols kr t h vs).2 = t) ∧
    (∀ ss g ok t st h, (mmg3d_get_tensor_sols ss g ok t st h).2.1 = t) ∧
    (∀ kr t h, (mmg3d_remesh kr t h).2 = t) ∧
    (∀ kr t h fn, (mmg3d_load_mesh kr t h fn).2 = t) ∧
    (∀ kr t h fn, (mmg3d_save_mesh kr t h fn).2 = t) ∧
    (∀ kr t h fn, (mmg3d_load_sol kr t h fn).2 = t) ∧
    (∀ kr t h fn, (mmg3d_save_sol kr t h fn).2 = t) ∧
    (∀ q t h k, (mmg3d_get_tetrahedron_quality q t h k).2 = t) ∧
    (∀ ms q ok t st h, (mmg3d_get_tetrahedra_qualities ms q ok t st h).2.1 = t) ∧
    (∀ kr t h np nt na, (mmgs_set_mesh_size kr t h np nt na).2 = t) ∧
    (∀ ms t h, (mmgs_get_mesh_size ms t h).2 = t) ∧
    (∀ kr t h x y z r p, (mmgs_set_vertex kr t h x y z r p).2 = t) ∧
    (∀ kr t h vs rs, (mmgs_set_vertices kr t h vs rs).2 = t) ∧
    (∀ ms g ok t st h, (mmgs_get_vertices ms g ok t st h).2.1 = t) ∧
    (∀ kr t h a b c r p, (mmgs_set_triangle kr t h a b c r p).2 = t) ∧
    (∀ kr t h vs rs, (mmgs_set_triangles kr t h vs rs).2 = t) ∧
    (∀ ms g ok t st h, (mmgs_get_triangles ms g ok t st h).2.1 = t) ∧
    (∀ kr t h a b r p, (mmgs_set_edge kr t h a b r p).2 = t) ∧
    (∀ kr t h vs rs, (mmgs_set_edges kr t h vs rs).2 = t) ∧
    (∀ ms g ok t st h, (mmgs_get_edges ms g ok t st h).2.1 = t) ∧
    (∀ kr t h ip v, (mmgs_set_iparameter kr t h ip v).2 = t) ∧
    (∀ kr t h dp v, (mmgs_set_dparameter kr t h dp v).2 = t) ∧
    (∀ kr t h te np ts, (mmgs_set_sol_size kr t h te np ts).2 = t) ∧
    (∀ ss t h, (mmgs_get_sol_size ss t h).2 = t) ∧
    (∀ kr t h vs, (mmgs_set_scalar_sols kr t h vs).2 = t) ∧
    (∀ ss g ok t st h, (mmgs_get_scalar_sols ss g ok t st h).2.1 = t) ∧
    (∀ kr t h vs, (mmgs_set_tensor_sols kr t h vs).2 = t) ∧
    (∀ ss g ok t st h, (mmgs_get_tensor_sols ss g ok t st h).2.1 = t) ∧
    (∀ kr t h, (mmgs_remesh kr t h).2 = t) ∧
    (∀ kr t h fn, (mmgs_load_mesh kr t h fn).2 = t) ∧
    (∀ kr t h fn, (mmgs_save_mesh kr t h fn).2 = t) ∧
    (∀ kr t h fn, (mmgs_load_sol kr t h fn).2 = t) ∧
    (∀ kr t h fn, (mmgs_save_sol kr t h fn).2 = t) ∧
    (∀ q t h k, (mmgs_get_triangle_quality q t h k).2 = t) ∧
    (∀ ms q ok t st h, (mmgs_get_triangles_qualities ms q ok t st h).2.1 = t) := by
  refine ⟨rfl, rfl, rfl, fun k s => ⟨rfl, rfl⟩, fun s h => ⟨rfl, rfl⟩,
    fun k s => ⟨rfl, rfl⟩, fun s h => ⟨rfl, rfl⟩, fun k s => ⟨rfl, rfl⟩,
    fun s h => ⟨rfl, rfl⟩, ?_⟩
  repeat' apply And.intro
  all_goals intros
  all_goals simp only [mmg2d_get_vertices, mmg2d_get_triangles, mmg2d_get_edges,
    mmg2d_get_scalar_sols, mmg2d_get_tensor_sols, mmg2d_get_triangles_qualities,
    mmg2d_get_mesh_size, mmg2d_get_sol_size,
    mmg3d_get_vertices, mmg3d_get_tetrahedra, mmg3d_get_triangles,
    mmg3d_get_scalar_sols, mmg3d_get_tensor_sols, mmg3d_get_tetrahedra_qualities,
    mmg3d_get_mesh_size, mmg3d_get_sol_size,
    mmgs_get_vertices, mmgs_get_triangles, mmgs_get_edges,
    mmgs_get_scalar_sols, mmgs_get_tensor_sols, mmgs_get_triangles_qualities,
    mmgs_get_mesh_size, mmgs_get_sol_size,
    mmg2d_set_mesh_size, mmg2d_set_vertex, mmg2d_set_vertices, mmg2d_set_triangle,
    mmg2d_set_triangles, mmg2d_set_edge, mmg2d_set_edges, mmg2d_set_iparameter,
    mmg2d_set_dparameter, mmg2d_set_sol_size, mmg2d_set_scalar_sols,
    mmg2d_set_tensor_sols, mmg2d_remesh, mmg2d_load_mesh, mmg2d_save_mesh,
    mmg2d_load_sol, mmg2d_save_sol, mmg2d_get_triangle_quality,
    mmg3d_set_mesh_size, mmg3d_set_vertex, mmg3d_set_vertices, mmg3d_set_tetrahedron,
    mmg3d_set_tetrahedra, mmg3d_set_triangle, mmg3d_set_triangles,
    mmg3d_set_iparameter, mmg3d_set_dparameter, mmg3d_set_sol_size,
    mmg3d_set_scalar_sols, mmg3d_set_tensor_sols, mmg3d_remesh, mmg3d_load_mesh,
    mmg3d_save_mesh, mmg3d_load_sol, mmg3d_save_sol, mmg3d_get_tetrahedron_quality,
    mmgs_set_mesh_size, mmgs_set_vertex, mmgs_set_vertices, mmgs_set_triangle,
    mmgs_set_triangles, mmgs_set_edge, mmgs_set_edges, mmgs_set_iparameter,
    mmgs_set_dparameter, mmgs_set_sol_size, mmgs_set_scalar_sols,
    mmgs_set_tensor_sols, mmgs_remesh, mmgs_load_mesh, mmgs_save_mesh,
    mmgs_load_sol, mmgs_save_sol, mmgs_get_triangle_quality]
  all_goals (repeat' split) <;> rfl

/-- Claim C3: for every handle value that is not currently active (in
particular negative values and values ≥ 64), every handle-taking entry
point returns its designated failure sentinel (0 for int-returning
operations, -1 for remesh, no-buffer with out-count 0 for buffer-returning
operations, 0.0 for quality) and leaves the handle table and the
allocation state unchanged. -/
theorem claim_C3_invalid_handle :
    (∀ (t : Table2D) (h : Int), validate_handle_2d t h = false →
      mmg2d_free t h = (0, t) ∧
      (∀ kr np nt nq na, mmg2d_set_mesh_size kr t h np nt nq na = (0, t)) ∧
      (∀ ms, mmg2d_get_mesh_size ms t h = ((0, none), t)) ∧
      (∀ kr x y r p, mmg2d_set_vertex kr t h x y r p = (0, t)) ∧
      (∀ kr vs rs, mmg2d_set_vertices kr t h vs rs = (0, t)) ∧
      (∀ ms g ok st, mmg2d_get_vertices ms g ok t st h = ((none, 0), t, st)) ∧
      (∀ kr a b c r p, mmg2d_set_triangle kr t h a b c r p = (0, t)) ∧
      (∀ kr vs rs, mmg2d_set_triangles kr t h vs rs = (0, t)) ∧
      (∀ ms g ok st, mmg2d_get_triangles ms g ok t st h = ((none, 0), t, st)) ∧
      (∀ kr a b r p, mmg2d_set_edge kr t h a b r p = (0, t)) ∧
      (∀ kr vs rs, mmg2d_set_edges kr t h vs rs = (0, t)) ∧
      (∀ ms g ok st, mmg2d_get_edges ms g ok t st h = ((none, 0), t, st)) ∧
      (∀ kr ip v, mmg2d_set_iparameter kr t h ip v = (0, t)) ∧
      (∀ kr dp v, mmg2d_set_dparameter kr t h dp v = (0, t)) ∧
      (∀ kr te np ts, mmg2d_set_sol_size kr t h te np ts = (0, t)) ∧
      (∀ ss, mmg2d_get_sol_size ss t h = ((0, none), t)) ∧
      (∀ kr vs, mmg2d_set_scalar_sols kr t h vs = (0, t)) ∧
      (∀ ss g ok st, mmg2d_get_scalar_sols ss g ok t st h = ((none, 0), t, st)) ∧
      (∀ kr vs, mmg2d_set_tensor_sols kr t h vs = (0, t)) ∧
      (∀ ss g ok st, mmg2d_get_tensor_sols ss g ok t st h = ((none, 0), t, st)) ∧
      (∀ kr, mmg2d_remesh kr t h = (-1, t)) ∧
      (∀ kr fn, mmg2d_load_mesh kr t h fn = (0, t)) ∧
      (∀ kr fn, mmg2d_save_mesh kr t h fn = (0, t)) ∧
      (∀ kr fn, mmg2d_load_sol kr t h fn = (0, t)) ∧
      (∀ kr fn, mmg2d_save_sol kr t h fn = (0, t)) ∧
      (∀ q k, mmg2d_get_triangle_quality q t h k = (0, t)) ∧
      (∀ ms q ok st, mmg2d_get_triangles_qualities ms q ok t st h =
        ((none, 0), t, st))) ∧
    (∀ (t : Table3D) (h : Int), validate_handle t h = false →
      mmg3d_free t h = (0, t) ∧
      (∀ kr np ne npr nt nq na,
        mmg3d_set_mesh_size kr t h np ne npr nt nq na = (0, t)) ∧
      (∀ ms, mmg3d_get_mesh_size ms t h = ((0, none), t)) ∧
      (∀ kr x y z r p, mmg3d_set_vertex kr t h x y z r p = (0, t)) ∧
      (∀ kr vs rs, mmg3d_set_vertices kr t h vs rs = (0, t)) ∧
      (∀ ms g ok st, mmg3d_get_vertices ms g ok t st h = ((none, 0), t, st)) ∧
      (∀ kr a b c d r p, mmg3d_set_tetrahedron kr t h a b c d r p = (0, t)) ∧
      (∀ kr vs rs, mmg3d_set_tetrahedra kr t h vs rs = (0, t)) ∧
      (∀ ms g ok st, mmg3d_get_tetrahedra ms g ok t st h = ((none, 0), t, st)) ∧
      (∀ kr a b c r p, mmg3d_set_triangle kr t h a b c r p = (0, t)) ∧
      (∀ kr vs rs, mmg3d_set_triangles kr t h vs rs = (0, t)) ∧
      (∀ ms g ok st, mmg3d_get_triangles ms g ok t st h = ((none, 0), t, st)) ∧
      (∀ kr ip v, mmg3d_set_iparameter kr t h ip v = (0, t)) ∧
      (∀ kr dp v, mmg3d_set_dparameter kr t h dp v = (0, t)) ∧
      (∀ kr te np ts, mmg3d_set_sol_size kr t h te np ts = (0, t)) ∧
      (∀ ss, mmg3d_get_sol_size ss t h = ((0, none), t)) ∧
      (∀ kr vs, mmg3d_set_scalar_sols kr t h vs = (0, t)) ∧
      (∀ ss g ok st, mmg3d_get_scalar_sols ss g ok t st h = ((none, 0), t, st)) ∧
      (∀ kr vs, mmg3d_set_tensor_sols kr t h vs = (0, t)) ∧
      (∀ ss g ok st, mmg3d_get_tensor_sols ss g ok t st h = ((none, 0), t, st)) ∧
      (∀ kr, mmg3d_remesh kr t h = (-1, t)) ∧
      (∀ kr fn, mmg3d_load_mesh kr t h fn = (0, t)) ∧
      (∀ kr fn, mmg3d_save_mesh kr t h fn = (0, t)) ∧
      (∀ kr fn, mmg3d_load_sol kr t h fn = (0, t)) ∧
      (∀ kr fn, mmg3d_save_sol kr t h fn = (0, t)) ∧
      (∀ q k, mmg3d_get_tetrahedron_quality q t h k = (0, t)) ∧
      (∀ ms q ok st, mmg3d_get_tetrahedra_qualities ms q ok t st h =
        ((none, 0), t, st))) ∧
    (∀ (t : TableS) (h : Int), validate_handle_s t h = false →
      mmgs_free t h = (0, t) ∧
      (∀ kr np nt na, mmgs_set_mesh_size kr t h np nt na = (0, t)) ∧
      (∀ ms, mmgs_get_mesh_size ms t h = ((0, none), t)) ∧
      (∀ kr x y z r p, mmgs_set_vertex kr t h x y z r p = (0, t)) ∧
      (∀ kr vs rs, mmgs_set_vertices kr t h vs rs = (0, t)) ∧
      (∀ ms g ok st, mmgs_get_vertices ms g ok t st h = ((none, 0), t, st)) ∧
      (∀ kr a b c r p, mmgs_set_triangle kr t h a b c r p = (0, t)) ∧
      (∀ kr vs rs, mmgs_set_triangles kr t h vs rs = (0, t)) ∧
      (∀ ms g ok st, mmgs_get_triangles ms g ok t st h = ((none, 0), t, st)) ∧
      (∀ kr a b r p, mmgs_set_edge kr t h a b r p = (0, t)) ∧
      (∀ kr vs rs, mmgs_set_edges kr t h vs rs = (0, t)) ∧
      (∀ ms g ok st, mmgs_get_edges ms g ok t st h = ((none, 0), t, st)) ∧
      (∀ kr ip v, mmgs_set_iparameter kr t h ip v = (0, t)) ∧
      (∀ kr dp v, mmgs_set_dparameter kr t h dp v = (0, t)) ∧
      (∀ kr te np ts, mmgs_set_sol_size kr t h te np ts = (0, t)) ∧
      (∀ ss, mmgs_get_sol_size ss t h = ((0, none), t)) ∧
      (∀ kr vs, mmgs_set_scalar_sols kr t h vs = (0, t)) ∧
      (∀ ss g ok st, mmgs_get_scalar_sols ss g ok t st h = ((none, 0), t, st)) ∧
      (∀ kr vs, mmgs_set_tensor_sols kr t h vs = (0, t)) ∧
      (∀ ss g ok st, mmgs_get_tensor_sols ss g ok t st h = ((none, 0), t, st)) ∧
      (∀ kr, mmgs_remesh kr t h = (-1, t)) ∧
      (∀ kr fn, mmgs_load_mesh kr t h fn = (0, t)) ∧
      (∀ kr fn, mmgs_save_mesh kr t h fn = (0, t)) ∧
      (∀ kr fn, mmgs_load_sol kr t h fn = (0, t)) ∧
      (∀ kr fn, mmgs_save_sol kr t h fn = (0, t)) ∧
      (∀ q k, mmgs_get_triangle_quality q t h k = (0, t)) ∧
      (∀ ms q ok st, mmgs_get_triangles_qualities ms q ok t st h =
        ((none, 0), t, st))) := by
  refine ⟨?_, ?_, ?_⟩
  · intro t h hv
    repeat' apply And.intro
    all_goals intros
    all_goals simp [mmg2d_free, mmg2d_set_mesh_size, mmg2d_get_mesh_size,
      mmg2d_set_vertex, mmg2d_set_vertices, mmg2d_get_vertices,
      mmg2d_set_triangle, mmg2d_set_triangles, mmg2d_get_triangles,
      mmg2d_set_edge, mmg2d_set_edges, mmg2d_get_edges,
      mmg2d_set_iparameter, mmg2d_set_dparameter, mmg2d_set_sol_size,
      mmg2d_get_sol_size, mmg2d_set_scalar_sols, mmg2d_get_scalar_sols,
      mmg2d_set_tensor_sols, mmg2d_get_tensor_sols, mmg2d_remesh,
      mmg2d_load_mesh, mmg2d_save_mesh, mmg2d_load_sol, mmg2d_save_sol,
      mmg2d_get_triangle_quality, mmg2d_get_triangles_qualities, hv]
  · intro t h hv
    repeat' apply And.intro
    all_goals intros
    all_goals simp [mmg3d_free, mmg3d_set_mesh_size, mmg3d_get_mesh_size,
      mmg3d_set_vertex, mmg3d_set_vertices, mmg3d_get_vertices,
      mmg3d_set_tetrahedron, mmg3d_set_tetrahedra, mmg3d_get_tetrahedra,
      mmg3d_set_triangle, mmg3d_set_triangles, mmg3d_get_triangles,
      mmg3d_set_iparameter, mmg3d_set_dparameter, mmg3d_set_sol_size,
      mmg3d_get_sol_size, mmg3d_set_scalar_sols, mmg3d_get_scalar_sols,
      mmg3d_set_tensor_sols, mmg3d_get_tensor_sols, mmg3d_remesh,
      mmg3d_load_mesh, mmg3d_save_mesh, mmg3d_load_sol, mmg3d_save_sol,
      mmg3d_get_tetrahedron_quality, mmg3d_get_tetrahedra_qualities, hv]
  · intro t h hv
    repeat' apply And.intro
    all_goals intros
    all_goals simp [mmgs_free, mmgs_set_mesh_size, mmgs_get_mesh_size,
      mmgs_set_vertex, mmgs_set_vertices, mmgs_get_vertices,
      mmgs_set_triangle, mmgs_set_triangles, mmgs_get_triangles,
      mmgs_set_edge, mmgs_set_edges, mmgs_get_edges,
      mmgs_set_iparameter, mmgs_set_dparameter, mmgs_set_sol_size,
      mmgs_get_sol_size, mmgs_set_scalar_sols, mmgs_get_scalar_sols,
      mmgs_set_tensor_sols, mmgs_get_tensor_sols, mmgs_remesh,
      mmgs_load_mesh, mmgs_save_mesh, mmgs_load_sol, mmgs_save_sol,
      mmgs_get_triangle_quality, mmgs_get_triangles_qualities, hv]

/-- Claim C2: in every bulk get (vertices, triangles, edges, tetrahedra,
in all three variants), a no-buffer outcome leaves the live allocation set
exactly as it was before the call (every buffer allocated during the call,
including the retained data buffer on kernel failure, is released) with
out-count 0, and a returned buffer implies the kernel call succeeded, the
out-count is the entity count, the buffer is fresh and is the only
allocation retained. -/
theorem claim_C2_bulk_get_rollback :
    (∀ ms g ok t (st : AllocState) h,
      ((mmg2d_get_vertices ms g ok t st h).1.1 = none →
        (mmg2d_get_vertices ms g ok t st h).1.2 = 0 ∧
        (mmg2d_get_vertices ms g ok t st h).2.2.live = st.live) ∧
      (∀ b, (mmg2d_get_vertices ms g ok t st h).1.1 = some b →
        g = 1 ∧ (mmg2d_get_vertices ms g ok t st h).1.2 = ms.np ∧
        (mmg2d_get_vertices ms g ok t st h).2.2.live = b :: st.live ∧
        ((∀ x ∈ st.live, x < st.nextId) → b ∉ st.live))) ∧
    (∀ ms g ok t (st : AllocState) h,
      ((mmg2d_get_triangles ms g ok t st h).1.1 = none →
        (mmg2d_get_triangles ms g ok t st h).1.2 = 0 ∧
        (mmg2d_get_triangles ms g ok t st h).2.2.live = st.live) ∧
      (∀ b, (mmg2d_get_triangles ms g ok t st h).1.1 = some b →
        g = 1 ∧ (mmg2d_get_triangles ms g ok t st h).1.2 = ms.nt ∧
        (mmg2d_get_triangles ms g ok t st h).2.2.live = b :: st.live ∧
        ((∀ x ∈ st.live, x < st.nextId) → b ∉ st.live))) ∧
    (∀ ms g ok t (st : AllocState) h,
      ((mmg2d_get_edges ms g ok t st h).1.1 = none →
        (mmg2d_get_edges ms g ok t st h).1.2 = 0 ∧
        (mmg2d_get_edges ms g ok t st h).2.2.live = st.live) ∧
      (∀ b, (mmg2d_get_edges ms g ok t st h).1.1 = some b →
        g = 1 ∧ (mmg2d_get_edges ms g ok t st h).1.2 = ms.na ∧
        (mmg2d_get_edges ms g ok t st h).2.2.live = b :: st.live ∧
        ((∀ x ∈ st.live, x < st.nextId) → b ∉ st.live))) ∧
    (∀ ms g ok t (st : AllocState) h,
      ((mmg3d_get_vertices ms g ok t st h).1.1 = none →
        (mmg3d_get_vertices ms g ok t st h).1.2 = 0 ∧
        (mmg3d_get_vertices ms g ok t st h).2.2.live = st.live) ∧
      (∀ b, (mmg3d_get_vertices ms g ok t st h).1.1 = some b →
        g = 1 ∧ (mmg3d_get_vertices ms g ok t st h).1.2 = ms.np ∧
        (mmg3d_get_vertices ms g ok t st h).2.2.live = b :: st.live ∧
        ((∀ x ∈ st.live, x < st.nextId) → b ∉ st.live))) ∧
    (∀ ms g ok t (st : AllocState) h,
      ((mmg3d_get_tetrahedra ms g ok t st h).1.1 = none →
        (mmg3d_get_tetrahedra ms g ok t st h).1.2 = 0 ∧
        (mmg3d_get_tetrahedra ms g ok t st h).2.2.live = st.live) ∧
      (∀ b, (mmg3d_get_tetrahedra ms g ok t st h).1.1 = some b →
        g = 1 ∧ (mmg3d_get_tetrahedra ms g ok t st h).1.2 = ms.ne ∧
        (mmg3d_get_tetrahedra ms g ok t st h).2.2.live = b :: st.live ∧
        ((∀ x ∈ st.live, x < st.nextId) → b ∉ st.live))) ∧
    (∀ ms g ok t (st : AllocState) h,
      ((mmg3d_get_triangles ms g ok t st h).1.1 = none →
        (mmg3d_get_triangles ms g ok t st h).1.2 = 0 ∧
        (mmg3d_get_triangles ms g ok t st h).2.2.live = st.live) ∧
      (∀ b, (mmg3d_get_triangles ms g ok t st h).1.1 = some b →
        g = 1 ∧ (mmg3d_get_triangles ms g ok t st h).1.2 = ms.nt ∧
        (mmg3d_get_triangles ms g ok t st h).2.2.live = b :: st.live ∧
        ((∀ x ∈ st.live, x < st.nextId) → b ∉ st.live))) ∧
    (∀ ms g ok t (st : AllocState) h,
      ((mmgs_get_vertices ms g ok t st h).1.1 = none →
        (mmgs_get_vertices ms g ok t st h).1.2 = 0 ∧
        (mmgs_get_vertices ms g ok t st h).2.2.live = st.live) ∧
      (∀ b, (mmgs_get_vertices ms g ok t st h).1.1 = some b →
        g = 1 ∧ (mmgs_get_vertices ms g ok t st h).1.2 = ms.np ∧
        (mmgs_get_vertices ms g ok t st h).2.2.live = b :: st.live ∧
        ((∀ x ∈ st.live, x < st.nextId) → b ∉ st.live))) ∧
    (∀ ms g ok t (st : AllocState) h,
      ((mmgs_get_triangles ms g ok t st h).1.1 = none →
        (mmgs_get_triangles ms g ok t st h).1.2 = 0 ∧
        (mmgs_get_triangles ms g ok t st h).2.2.live = st.live) ∧
      (∀ b, (mmgs_get_triangles ms g ok t st h).1.1 = some b →
        g = 1 ∧ (mmgs_get_triangles ms g ok t st h).1.2 = ms.nt ∧
        (mmgs_get_triangles ms g ok t st h).2.2.live = b :: st.live ∧
        ((∀ x ∈ st.live, x < st.nextId) → b ∉ st.live))) ∧
    (∀ ms g ok t (st : AllocState) h,
      ((mmgs_get_edges ms g ok t st h).1.1 = none →
        (mmgs_get_edges ms g ok t st h).1.2 = 0 ∧
        (mmgs_get_edges ms g ok t st h).2.2.live = st.live) ∧
      (∀ b, (mmgs_get_edges ms g ok t st h).1.1 = some b →
        g = 1 ∧ (mmgs_get_edges ms g ok t st h).1.2 = ms.na ∧
        (mmgs_get_edges ms g ok t st h).2.2.live = b :: st.live ∧
        ((∀ x ∈ st.live, x < st.nextId) → b ∉ st.live))) :=
  ⟨fun ms g ok t st h => mmg2d_get_vertices_spec ms g ok t h st.nextId st.live,
   fun ms g ok t st h => mmg2d_get_triangles_spec ms g ok t h st.nextId st.live,
   fun ms g ok t st h => mmg2d_get_edges_spec ms g ok t h st.nextId st.live,
   fun ms g ok t st h => mmg3d_get_vertices_spec ms g ok t h st.nextId st.live,
   fun ms g ok t st h => mmg3d_get_tetrahedra_spec ms g ok t h st.nextId st.live,
   fun ms g ok t st h => mmg3d_get_triangles_spec ms g ok t h st.nextId st.live,
   fun ms g ok t st h => mmgs_get_vertices_spec ms g ok t h st.nextId st.live,
   fun ms g ok t st h => mmgs_get_triangles_spec ms g ok t h st.nextId st.live,
   fun ms g ok t st h => mmgs_get_edges_spec ms g ok t h st.nextId st.live⟩

/-- Witness for claim C2: with an always-failing allocator, a bulk vertex
get on a valid handle with five vertices reports out-count 0 and leaves no
live buffer behind. -/
theorem claim_C2_bulk_get_rollback_witness :
    (mmg2d_get_vertices ⟨1, 5, 0, 0, 0⟩ 1 (fun _ => false) table2d_one alloc0 0).1.2
        = 0 ∧
    (mmg2d_get_vertices ⟨1, 5, 0, 0, 0⟩ 1 (fun _ => false) table2d_one alloc0 0).2.2.live
        = [] :=
  (claim_C2_bulk_get_rollback.1 ⟨1, 5, 0, 0, 0⟩ 1 (fun _ => false) table2d_one
    alloc0 0).1 rfl

/-- Witness for claim C3: freeing the never-allocated handle 7 of the
fresh 2D table fails with sentinel 0 and leaves the table unchanged. -/
theorem claim_C3_invalid_handle_witness :
    mmg2d_free g_handles_2d_start 7 = (0, g_handles_2d_start) :=
  (claim_C3_invalid_handle.1 g_handles_2d_start 7 (by decide)).1

/-- Claim C7: on a valid handle whose count of the requested entity kind is
zero, every bulk get returns no-data (no buffer, out-count 0) without
allocating or retaining anything: handle table and allocation state are
returned unchanged, exactly as in the other no-data branches. -/
theorem claim_C7_zero_count_no_data :
    (∀ ms g ok t st h, validate_handle_2d t h = true → ms.result = 1 →
      ms.np = 0 → mmg2d_get_vertices ms g ok t st h = ((none, 0), t, st)) ∧
    (∀ ms g ok t st h, validate_handle_2d t h = true → ms.result = 1 →
      ms.nt = 0 → mmg2d_get_triangles ms g ok t st h = ((none, 0), t, st)) ∧
    (∀ ms g ok t st h, validate_handle_2d t h = true → ms.result = 1 →
      ms.na = 0 → mmg2d_get_edges ms g ok t st h = ((none, 0), t, st)) ∧
    (∀ ss g ok t st h, validate_handle_2d t h = true → ss.result = 1 →
      ss.np = 0 → mmg2d_get_scalar_sols ss g ok t st h = ((none, 0), t, st)) ∧
    (∀ ss g ok t st h, validate_handle_2d t h = true → ss.result = 1 →
      ss.np = 0 → mmg2d_get_tensor_sols ss g ok t st h = ((none, 0), t, st)) ∧
    (∀ ms q ok t st h, validate_handle_2d t h = true → ms.result = 1 →
      ms.nt = 0 → mmg2d_get_triangles_qualities ms q ok t st h = ((none, 0), t, st)) ∧
    (∀ ms g ok t st h, validate_handle t h = true → ms.result = 1 →
      ms.np = 0 → mmg3d_get_vertices ms g ok t st h = ((none, 0), t, st)) ∧
    (∀ ms g ok t st h, validate_handle t h = true → ms.result = 1 →
      ms.ne = 0 → mmg3d_get_tetrahedra ms g ok t st h = ((none, 0), t, st)) ∧
    (∀ ms g ok t st h, validate_handle t h = true → ms.result = 1 →
      ms.nt = 0 → mmg3d_get_triangles ms g ok t st h = ((none, 0), t, st)) ∧
    (∀ ss g ok t st h, validate_handle t h = true → ss.result = 1 →
      ss.np = 0 → mmg3d_get_scalar_sols ss g ok t st h = ((none, 0), t, st)) ∧
    (∀ ss g ok t st h, validate_handle t h = true → ss.result = 1 →
      ss.np = 0 → mmg3d_get_tensor_sols ss g ok t st h = ((none, 0), t, st)) ∧
    (∀ ms q ok t st h, validate_handle t h = true → ms.result = 1 →
      ms.ne = 0 → mmg3d_get_tetrahedra_qualities ms q ok t st h = ((none, 0), t, st)) ∧
    (∀ ms g ok t st h, validate_handle_s t h = true → ms.result = 1 →
      ms.np = 0 → mmgs_get_vertices ms g ok t st h = ((none, 0), t, st)) ∧
    (∀ ms g ok t st h, validate_handle_s t h = true → ms.result = 1 →
      ms.nt = 0 → mmgs_get_triangles ms g ok t st h = ((none, 0), t, st)) ∧
    (∀ ms g ok t st h, validate_handle_s t h = true → ms.result = 1 →
      ms.na = 0 → mmgs_get_edges ms g ok t st h = ((none, 0), t, st)) ∧
    (∀ ss g ok t st h, validate_handle_s t h = true → ss.result = 1 →
      ss.np = 0 → mmgs_get_scalar_sols ss g ok t st h = ((none, 0), t, st)) ∧
    (∀ ss g ok t st h, validate_handle_s t h = true → ss.result = 1 →
      ss.np = 0 → mmgs_get_tensor_sols ss g ok t st h = ((none, 0), t, st)) ∧
    (∀ ms q ok t st h, validate_handle_s t h = true → ms.result = 1 →
      ms.nt = 0 → mmgs_get_triangles_qualities ms q ok t st h = ((none, 0), t, st)) := by
  repeat' apply And.intro
  all_goals intro ms g ok t st h hv hr hc
  all_goals simp [mmg2d_get_vertices, mmg2d_get_triangles, mmg2d_get_edges,
    mmg2d_get_scalar_sols, mmg2d_get_tensor_sols, mmg2d_get_triangles_qualities,
    mmg3d_get_vertices, mmg3d_get_tetrahedra, mmg3d_get_triangles,
    mmg3d_get_scalar_sols, mmg3d_get_tensor_sols, mmg3d_get_tetrahedra_qualities,
    mmgs_get_vertices, mmgs_get_triangles, mmgs_get_edges,
    mmgs_get_scalar_sols, mmgs_get_tensor_sols, mmgs_get_triangles_qualities,
    hv, hr, hc]

/-- Witness for claim C7: a valid handle with zero vertices yields the
no-data result with nothing allocated. -/
theorem claim_C7_zero_count_no_data_witness :
    mmg2d_get_vertices ⟨1, 0, 0, 0, 0⟩ 1 (fun _ => true) table2d_one alloc0 0 =
      ((none, 0), table2d_one, alloc0) :=
  claim_C7_zero_count_no_data.1 ⟨1, 0, 0, 0, 0⟩ 1 (fun _ => true) table2d_one
    alloc0 0 (by decide) rfl rfl

/-- Claim C9: the bulk scalar-field get returns no-data whenever the
declared solution type is not scalar (typSol ≠ 1) and the bulk tensor-field
get returns no-data whenever the declared type is not tensor (typSol ≠ 3),
even when the declared entity count is positive, in all three variants. -/
theorem claim_C9_sol_type_guard :
    (∀ ss g ok t st h, validate_handle_2d t h = true → ss.result = 1 →
      ss.typSol ≠ 1 → mmg2d_get_scalar_sols ss g ok t st h = ((none, 0), t, st)) ∧
    (∀ ss g ok t st h, validate_handle_2d t h = true → ss.result = 1 →
      ss.typSol ≠ 3 → mmg2d_get_tensor_sols ss g ok t st h = ((none, 0), t, st)) ∧
    (∀ ss g ok t st h, validate_handle t h = true → ss.result = 1 →
      ss.typSol ≠ 1 → mmg3d_get_scalar_sols ss g ok t st h = ((none, 0), t, st)) ∧
    (∀ ss g ok t st h, validate_handle t h = true → ss.result = 1 →
      ss.typSol ≠ 3 → mmg3d_get_tensor_sols ss g ok t st h = ((none, 0), t, st)) ∧
    (∀ ss g ok t st h, validate_handle_s t h = true → ss.result = 1 →
      ss.typSol ≠ 1 → mmgs_get_scalar_sols ss g ok t st h = ((none, 0), t, st)) ∧
    (∀ ss g ok t st h, validate_handle_s t h = true → ss.result = 1 →
      ss.typSol ≠ 3 → mmgs_get_tensor_sols ss g ok t st h = ((none, 0), t, st)) := by
  repeat' apply And.intro
  all_goals intro ss g ok t st h hv hr hts
  all_goals simp [mmg2d_get_scalar_sols, mmg2d_get_tensor_sols,
    mmg3d_get_scalar_sols, mmg3d_get_tensor_sols,
    mmgs_get_scalar_sols, mmgs_get_tensor_sols, hv, hr, hts]

/-- Witness for claim C9: a tensor-typed field (typSol 3) with five entries
yields no-data from the scalar getter. -/
theorem claim_C9_sol_type_guard_witness :
    mmg2d_get_scalar_sols ⟨1, 1, 5, 3⟩ 1 (fun _ => true) table2d_one alloc0 0 =
      ((none, 0), table2d_one, alloc0) :=
  claim_C9_sol_type_guard.1 ⟨1, 1, 5, 3⟩ 1 (fun _ => true) table2d_one alloc0 0
    (by decide) rfl (by decide)

/-- Claim C8: the single-element quality query returns the kernel value on a
valid handle (hence a value in [0,1] under the kernel's documented range)
and 0.0 on an invalid handle; for a valid handle with a positive element
count and a successful allocation, the bulk quality operation returns a
fresh buffer of length equal to the element count whose cell at k-1 holds
exactly the single-element quality at 1-based index k. -/
theorem claim_C8_quality :
    (∀ q (t : Table2D) h k, validate_handle_2d t h = false →
      mmg2d_get_triangle_quality q t h k = (0, t)) ∧
    (∀ q (t : Table2D) h k, validate_handle_2d t h = true →
      (mmg2d_get_triangle_quality q t h k).1 = q k) ∧
    (∀ (q : Int → Rat) (t : Table2D) h k, validate_handle_2d t h = true →
      (∀ j, 0 ≤ q j ∧ q j ≤ 1) →
      0 ≤ (mmg2d_get_triangle_quality q t h k).1 ∧
      (mmg2d_get_triangle_quality q t h k).1 ≤ 1) ∧
    (∀ ms (q : Int → Rat) ok (t : Table2D) (st : AllocState) h,
      validate_handle_2d t h = true → ms.result = 1 → ms.nt ≠ 0 →
      ok st.nextId = true →
      mmg2d_get_triangles_qualities ms q ok t st h =
        ((some (st.nextId,
            (List.range ms.nt.toNat).map (fun i => q (Int.ofNat (i + 1)))), ms.nt),
          t, ⟨st.nextId + 1, st.nextId :: st.live⟩) ∧
      ((∀ x ∈ st.live, x < st.nextId) → st.nextId ∉ st.live) ∧
      (∀ kk, 1 ≤ kk → kk ≤ ms.nt.toNat →
        ((List.range ms.nt.toNat).map (fun i => q (Int.ofNat (i + 1))))[kk - 1]? =
          some ((mmg2d_get_triangle_quality q t h (Int.ofNat kk)).1))) ∧
    (∀ q (t : Table3D) h k, validate_handle t h = false →
      mmg3d_get_tetrahedron_quality q t h k = (0, t)) ∧
    (∀ q (t : Table3D) h k, validate_handle t h = true →
      (mmg3d_get_tetrahedron_quality q t h k).1 = q k) ∧
    (∀ (q : Int → Rat) (t : Table3D) h k, validate_handle t h = true →
      (∀ j, 0 ≤ q j ∧ q j ≤ 1) →
      0 ≤ (mmg3d_get_tetrahedron_quality q t h k).1 ∧
      (mmg3d_get_tetrahedron_quality q t h k).1 ≤ 1) ∧
    (∀ ms (q : Int → Rat) ok (t : Table3D) (st : AllocState) h,
      validate_handle t h = true → ms.result = 1 → ms.ne ≠ 0 →
      ok st.nextId = true →
      mmg3d_get_tetrahedra_qualities ms q ok t st h =
        ((some (st.nextId,
            (List.range ms.ne.toNat).map (fun i => q (Int.ofNat (i + 1)))), ms.ne),
          t, ⟨st.nextId + 1, st.nextId :: st.live⟩) ∧
      ((∀ x ∈ st.live, x < st.nextId) → st.nextId ∉ st.live) ∧
      (∀ kk, 1 ≤ kk → kk ≤ ms.ne.toNat →
        ((List.range ms.ne.toNat).map (fun i => q (Int.ofNat (i + 1))))[kk - 1]? =
          some ((mmg3d_get_tetrahedron_quality q t h (Int.ofNat kk)).1))) := by
  refine ⟨?_, ?_, ?_, ?_, ?_, ?_, ?_, ?_⟩
  · intro q t h k hv
    simp [mmg2d_get_triangle_quality, hv]
  · intro q t h k hv
    simp [mmg2d_get_triangle_quality, hv]
  · intro q t h k hv hb
    have hq : (mmg2d_get_triangle_quality q t h k).1 = q k := by
      simp [mmg2d_get_triangle_quality, hv]
    rw [hq]
    exact hb k
  · intro ms q ok t st h hv hr hnt hok
    refine ⟨?_, fun hL hmem => absurd (hL _ hmem) (by omega), ?_⟩
    · simp [mmg2d_get_triangles_qualities, hv, hr, hnt, mallocBuf, hok]
    · intro kk h1 h2
      have hkk : kk - 1 + 1 = kk := by omega
      rw [List.getElem?_map, List.getElem?_range (by omega : kk - 1 < ms.nt.toNat)]
      simp [mmg2d_get_triangle_quality, hv, hkk]
      congr 1
      omega
  · intro q t h k hv
    simp [mmg3d_get_tetrahedron_quality, hv]
  · intro q t h k hv
    simp [mmg3d_get_tetrahedron_quality, hv]
  · intro q t h k hv hb
    have hq : (mmg3d_get_tetrahedron_quality q t h k).1 = q k := by
      simp [mmg3d_get_tetrahedron_quality, hv]
    rw [hq]
    exact hb k
  · intro ms q ok t st h hv hr hne hok
    refine ⟨?_, fun hL hmem => absurd (hL _ hmem) (by omega), ?_⟩
    · simp [mmg3d_get_tetrahedra_qualities, hv, hr, hne, mallocBuf, hok]
    · intro kk h1 h2
      have hkk : kk - 1 + 1 = kk := by omega
      rw [List.getElem?_map, List.getElem?_range (by omega : kk - 1 < ms.ne.toNat)]
      simp [mmg3d_get_tetrahedron_quality, hv, hkk]
      congr 1
      omega

/-- Witness for claim C8: on a valid handle the single quality query passes
through the kernel's value. -/
theorem claim_C8_quality_witness :
    (mmg2d_get_triangle_quality (fun _ => (1 : Rat) / 2) table2d_one 0 3).1 = 1 / 2 :=
  claim_C8_quality.2.1 (fun _ => (1 : Rat) / 2) table2d_one 0 3 (by decide)

end MmgWasm
